import Mathlib

/-!
Verification development for the bundle archive codec and session reconciler
of the pdf-turtle playground (src/components/composables/bundle-handling.ts).

Modelling conventions:
* Archive member paths and asset names are lists of characters (`List Char`),
  so that prefix tests and substring drops are the standard list operations.
* A JavaScript string that may be fed to `JSON.parse` is modelled by `JStr`:
  either a plain string that is not a JSON document, or the compact /
  2-space-pretty `JSON.stringify` rendering of a JSON value.  `JSON.parse`
  and `JSON.stringify` are platform built-ins (not code of this repository);
  they are modelled by the codec on `JStr`, which satisfies the ECMA-262
  contract that parsing a stringified value yields that value back.
* JSON numbers are modelled as integers; JSON object fields keep their
  textual order, with duplicate keys resolved last-wins as `JSON.parse` does.
* The zip container (the JsZip library) is modelled as an association list
  of path/content entries in insertion order; `Archive.file` replaces an
  existing entry in place, as assigning a key of a JS object does.
* Asynchronous control flow is modelled by plain sequencing; a thrown
  exception is modelled by an error value carried next to the state the
  mutated target had when the throw happened.
-/

/-- A JSON value, as produced by `JSON.parse`. -/
inductive Json where
  | null : Json
  | bool (b : Bool) : Json
  | num (n : Int) : Json
  | str (s : String) : Json
  | arr (items : List Json) : Json
  | obj (fields : List (String × Json)) : Json

mutual

/-- Decidable equality of JSON values, written out by hand: the deriving
handler does not cover nested inductives. -/
def Json.decEq : (a b : Json) → Decidable (a = b)
  | .null, .null => isTrue rfl
  | .bool a, .bool b =>
      if h : a = b then isTrue (by rw [h])
      else isFalse (fun hc => h (by cases hc; rfl))
  | .num a, .num b =>
      if h : a = b then isTrue (by rw [h])
      else isFalse (fun hc => h (by cases hc; rfl))
  | .str a, .str b =>
      if h : a = b then isTrue (by rw [h])
      else isFalse (fun hc => h (by cases hc; rfl))
  | .arr xs, .arr ys =>
      match Json.decEqList xs ys with
      | isTrue h => isTrue (by rw [h])
      | isFalse h => isFalse (fun hc => h (by cases hc; rfl))
  | .obj xs, .obj ys =>
      match Json.decEqFields xs ys with
      | isTrue h => isTrue (by rw [h])
      | isFalse h => isFalse (fun hc => h (by cases hc; rfl))
  | .null, .bool _ => isFalse (fun h => Json.noConfusion h)
  | .null, .num _ => isFalse (fun h => Json.noConfusion h)
  | .null, .str _ => isFalse (fun h => Json.noConfusion h)
  | .null, .arr _ => isFalse (fun h => Json.noConfusion h)
  | .null, .obj _ => isFalse (fun h => Json.noConfusion h)
  | .bool _, .null => isFalse (fun h => Json.noConfusion h)
  | .bool _, .num _ => isFalse (fun h => Json.noConfusion h)
  | .bool _, .str _ => isFalse (fun h => Json.noConfusion h)
  | .bool _, .arr _ => isFalse (fun h => Json.noConfusion h)
  | .bool _, .obj _ => isFalse (fun h => Json.noConfusion h)
  | .num _, .null => isFalse (fun h => Json.noConfusion h)
  | .num _, .bool _ => isFalse (fun h => Json.noConfusion h)
  | .num _, .str _ => isFalse (fun h => Json.noConfusion h)
  | .num _, .arr _ => isFalse (fun h => Json.noConfusion h)
  | .num _, .obj _ => isFalse (fun h => Json.noConfusion h)
  | .str _, .null => isFalse (fun h => Json.noConfusion h)
  | .str _, .bool _ => isFalse (fun h => Json.noConfusion h)
  | .str _, .num _ => isFalse (fun h => Json.noConfusion h)
  | .str _, .arr _ => isFalse (fun h => Json.noConfusion h)
  | .str _, .obj _ => isFalse (fun h => Json.noConfusion h)
  | .arr _, .null => isFalse (fun h => Json.noConfusion h)
  | .arr _, .bool _ => isFalse (fun h => Json.noConfusion h)
  | .arr _, .num _ => isFalse (fun h => Json.noConfusion h)
  | .arr _, .str _ => isFalse (fun h => Json.noConfusion h)
  | .arr _, .obj _ => isFalse (fun h => Json.noConfusion h)
  | .obj _, .null => isFalse (fun h => Json.noConfusion h)
  | .obj _, .bool _ => isFalse (fun h => Json.noConfusion h)
  | .obj _, .num _ => isFalse (fun h => Json.noConfusion h)
  | .obj _, .str _ => isFalse (fun h => Json.noConfusion h)
  | .obj _, .arr _ => isFalse (fun h => Json.noConfusion h)

/-- Decidable equality of JSON arrays. -/
def Json.decEqList : (xs ys : List Json) → Decidable (xs = ys)
  | [], [] => isTrue rfl
  | [], _ :: _ => isFalse (fun h => List.noConfusion h)
  | _ :: _, [] => isFalse (fun h => List.noConfusion h)
  | x :: xs, y :: ys =>
      match Json.decEq x y with
      | isTrue h1 =>
          (match Json.decEqList xs ys with
            | isTrue h2 => isTrue (by rw [h1, h2])
            | isFalse h2 => isFalse (fun hc => h2 (by cases hc; rfl)))
      | isFalse h1 => isFalse (fun hc => h1 (by cases hc; rfl))

/-- Decidable equality of JSON object field lists. -/
def Json.decEqFields : (xs ys : List (String × Json)) → Decidable (xs = ys)
  | [], [] => isTrue rfl
  | [], _ :: _ => isFalse (fun h => List.noConfusion h)
  | _ :: _, [] => isFalse (fun h => List.noConfusion h)
  | (k1, v1) :: xs, (k2, v2) :: ys =>
      if hk : k1 = k2 then
        match Json.decEq v1 v2 with
        | isTrue hv =>
            (match Json.decEqFields xs ys with
              | isTrue ht => isTrue (by rw [hk, hv, ht])
              | isFalse ht => isFalse (fun hc => ht (by cases hc; rfl)))
        | isFalse hv => isFalse (fun hc => hv (by cases hc; rfl))
      else isFalse (fun hc => hk (by cases hc; rfl))

end

instance : DecidableEq Json := Json.decEq

/-- JSON string-literal escaping of a single character. -/
def escapeChar : Char → String
  | ('"') => ("\\\"")
  | ('\\') => ("\\\\")
  | ('\n') => ("\\n")
  | ('\t') => ("\\t")
  | ('\r') => ("\\r")
  | c => String.singleton c

/-- JSON string-literal escaping, character by character. -/
def escapeJson (s : String) : String :=
  String.join (s.data.map escapeChar)

mutual

/-- Compact rendering of a JSON value, as `JSON.stringify(v)` produces. -/
def Json.render : Json → String
  | .null => ("null")
  | .bool true => ("true")
  | .bool false => ("false")
  | .num n => toString n
  | .str s => ("\"") ++ escapeJson s ++ ("\"")
  | .arr items => ("[") ++ Json.renderItems items ++ ("]")
  | .obj fields => ("\x7b") ++ Json.renderFields fields ++ ("\x7d")

/-- Comma-separated rendering of array items. -/
def Json.renderItems : List Json → String
  | [] => ("")
  | [v] => v.render
  | v :: w :: rest => v.render ++ (",") ++ Json.renderItems (w :: rest)

/-- Comma-separated rendering of object fields. -/
def Json.renderFields : List (String × Json) → String
  | [] => ("")
  | [kv] => ("\"") ++ escapeJson kv.1 ++ ("\":") ++ kv.2.render
  | kv :: kw :: rest =>
      ("\"") ++ escapeJson kv.1 ++ ("\":") ++ kv.2.render ++ (",") ++
        Json.renderFields (kw :: rest)

end

/-- A run of spaces, used by the pretty renderer for indentation. -/
def spacesOf (n : Nat) : String :=
  String.mk (List.replicate n (' '))

mutual

/-- Two-space pretty rendering, as `JSON.stringify(v, null, 2)` produces;
`ind` is the current indentation of the surrounding context. -/
def Json.renderP (ind : Nat) : Json → String
  | .arr [] => ("[]")
  | .arr (v :: rest) =>
      ("[\n") ++ Json.renderPItems (ind + 2) (v :: rest) ++ ("\n") ++
        spacesOf ind ++ ("]")
  | .obj [] => ("\x7b\x7d")
  | .obj (kv :: rest) =>
      ("\x7b\n") ++ Json.renderPFields (ind + 2) (kv :: rest) ++ ("\n") ++
        spacesOf ind ++ ("\x7d")
  | v => v.render

/-- Pretty rendering of array items, one per line. -/
def Json.renderPItems (ind : Nat) : List Json → String
  | [] => ("")
  | [v] => spacesOf ind ++ Json.renderP ind v
  | v :: w :: rest =>
      spacesOf ind ++ Json.renderP ind v ++ (",\n") ++
        Json.renderPItems ind (w :: rest)

/-- Pretty rendering of object fields, one per line. -/
def Json.renderPFields (ind : Nat) : List (String × Json) → String
  | [] => ("")
  | [kv] => spacesOf ind ++ ("\"") ++ escapeJson kv.1 ++ ("\": ") ++
      Json.renderP ind kv.2
  | kv :: kw :: rest =>
      spacesOf ind ++ ("\"") ++ escapeJson kv.1 ++ ("\": ") ++
        Json.renderP ind kv.2 ++ (",\n") ++ Json.renderPFields ind (kw :: rest)

end

/-- A JavaScript string as observed by this code: either a plain string that
is not a JSON document (`plain`), or the compact rendering `JSON.stringify(v)`
of a value (`jsonC`), or its 2-space pretty rendering `JSON.stringify(v,null,2)`
(`jsonP`).  This partitions strings by the behaviour of the platform built-in
`JSON.parse`/`JSON.stringify`, which is external to the repository. -/
inductive JStr where
  | plain (s : String) : JStr
  | jsonC (v : Json) : JStr
  | jsonP (v : Json) : JStr

/-- Whether the string is empty (JS falsiness for strings).  A `JSON.stringify`
rendering always starts with a bracket, quote, digit, sign or letter, so it is
never the empty string. -/
def JStr.isEmptyS : JStr → Bool
  | .plain s => s.isEmpty
  | .jsonC _ => false
  | .jsonP _ => false

/-- The behaviour of the platform built-in `JSON.parse` on the string:
a rendering of `v` parses back to `v` (ECMA-262), every other string in use
here is not a JSON document and makes `JSON.parse` throw, modelled as `none`. -/
def JStr.jsonParse : JStr → Option Json
  | .plain _ => none
  | .jsonC v => some v
  | .jsonP v => some v

/-- The characters of the string. -/
def JStr.chars : JStr → String
  | .plain s => s
  | .jsonC v => v.render
  | .jsonP v => Json.renderP 0 v

/-- The UTF-8 bytes of the string, as `Blob` conversion produces. -/
def JStr.bytes (s : JStr) : List Nat :=
  s.chars.toUTF8.toList.map (fun b => b.toNat)

deriving instance DecidableEq for JStr

/-- Content of one zip entry: added either as a string or as a binary blob
(`zip.file(path, stringOrBlob)`). -/
inductive EContent where
  | text (s : JStr) : EContent
  | bin (b : List Nat) : EContent

/-- Reading an entry as a string (`entry.async("string")`); a binary entry is
decoded byte-per-character. -/
def EContent.asString : EContent → JStr
  | .text s => s
  | .bin b => JStr.plain (String.mk (b.map (fun n => Char.ofNat n)))

/-- Reading an entry as a blob (`entry.async("blob")`); a text entry yields
its UTF-8 bytes. -/
def EContent.asBlob : EContent → List Nat
  | .text s => s.bytes
  | .bin b => b

deriving instance DecidableEq for EContent

/-- The zip container of JsZip, modelled as its entries in insertion order;
paths are unique in an actual zip object, and `Archive.file` keeps them so. -/
abbrev Archive := List (List Char × EContent)

/-- The empty zip (`new JsZip()`). -/
def Archive.empty : Archive := []

/-- `zip.file(path, content)`: replaces the entry at `path` in place when one
exists (JS object key assignment keeps the original position), otherwise
appends a new entry. -/
def Archive.file (z : Archive) (p : List Char) (c : EContent) : Archive :=
  if z.any (fun e => decide (e.1 = p)) then
    z.map (fun e => if e.1 = p then (p, c) else e)
  else
    z ++ [(p, c)]

/-- `zip.files[path]` lookup. -/
def Archive.findFile (z : Archive) (p : List Char) : Option EContent :=
  (z.find? (fun e => decide (e.1 = p))).map (fun e => e.2)

/-- Whether some entry has the given path. -/
def Archive.hasPath (z : Archive) (p : List Char) : Bool :=
  z.any (fun e => decide (e.1 = p))

/-- Render options of a session.  Modelled from the spec: the options type
lives in `models/render-data-base.ts`, which is not part of the sources; per
the spec it is "a render-options record (page format, orientation, margins)"
in which every recognized key has a value.  Values are JSON values, as
JavaScript puts no type constraint on what an archive may store in them. -/
structure RenderOptions where
  pageFormat : Json
  landscape : Json
  margins : Json

deriving instance DecidableEq for RenderOptions

/-- The options record as parsed from an archive: each recognized key is
present or absent. -/
structure PartialOptions where
  pageFormat : Option Json
  landscape : Option Json
  margins : Option Json

/-- Baseline option defaults.  Modelled from the spec: `getBaseOptions()` from
`models/render-data-base.ts` is not part of the sources; per the spec it is a
"baseline defaults record" giving every recognized option key a value. -/
def getBaseOptions : RenderOptions :=
  -- A4 portrait with uniform margins stands in for the real defaults.
  { pageFormat := Json.str ("A4")
    landscape := Json.bool false
    margins := Json.obj
      [(("top"), Json.num 25), (("right"), Json.num 25),
       (("bottom"), Json.num 20), (("left"), Json.num 25)] }

/-- The JSON object that `JSON.stringify(options)` serializes. -/
def optionsToJson (o : RenderOptions) : Json :=
  Json.obj
    [(("pageFormat"), o.pageFormat), (("landscape"), o.landscape),
     (("margins"), o.margins)]

/-- Last occurrence of a key among JSON object fields (duplicate keys in a
JSON text resolve last-wins under `JSON.parse`). -/
def lookupLast (k : String) (fields : List (String × Json)) : Option Json :=
  ((fields.filter (fun kv => decide (kv.1 = k))).getLast?).map (fun kv => kv.2)

/-- The recognized option keys a parsed JSON value provides.  Spreading a
non-object contributes no recognized key (primitives spread to nothing,
strings and arrays only to numeric index keys). -/
def jsonToPartialOptions : Json → PartialOptions
  | .obj fields =>
      { pageFormat := lookupLast ("pageFormat") fields
        landscape := lookupLast ("landscape") fields
        margins := lookupLast ("margins") fields }
  | _ => { pageFormat := none, landscape := none, margins := none }

/-- The object spread `{...base, ...parsed}` restricted to recognized keys:
the parsed value wins for each key it contains. -/
def mergeOptions (base : RenderOptions) (p : PartialOptions) : RenderOptions :=
  { pageFormat := p.pageFormat.getD base.pageFormat
    landscape := p.landscape.getD base.landscape
    margins := p.margins.getD base.margins }

/-- A named binary asset of a session (`models/asset.ts`). -/
structure Asset where
  name : List Char
  blob : List Nat
deriving DecidableEq

/-- The fixed assets folder of the bundle format.  Modelled from the spec:
`BundleAssetsFolder` is declared in `models/asset.ts`, which is not part of
the sources; `packBundle` writes assets under the literal path prefix
`assets/`, fixing its value. -/
def BundleAssetsFolder : List Char := ("assets").data

/-- The literal `assets/` path prefix `packBundle` writes under. -/
def assetsPrefix : List Char := ("assets/").data

/-- The `assetFolderPath` constant of `loadBundle`: the assets folder name
followed by the path separator. -/
def assetFolderPath : List Char := BundleAssetsFolder ++ [('/')]

/-- The in-memory session (`RenderTemplateDataViewModel` of the generated
client).  Fields are those the bundle-handling code reads and writes; an
undefined template string is identified with the empty string, which JS
truthiness makes indistinguishable here. -/
structure RenderTemplateDataViewModel where
  htmlTemplate : JStr
  headerHtmlTemplate : JStr
  footerHtmlTemplate : JStr
  options : RenderOptions
  model : Json
  modelStr : JStr
  assets : List Asset
  templateEngine : String

deriving instance DecidableEq for RenderTemplateDataViewModel

/-- Session defaults.  Modelled from the spec: `getBaseRenderData()` from
`models/render-data-base.ts` is not part of the sources; per the spec it
yields the sample-default session.  The concrete sample content stands in
for the real one; no theorem depends on it. -/
def getBaseRenderData : RenderTemplateDataViewModel :=
  { htmlTemplate := JStr.plain ("<h1>Sample invoice</h1>")
    headerHtmlTemplate := JStr.plain ("")
    footerHtmlTemplate := JStr.plain ("")
    options := getBaseOptions
    model := Json.obj []
    modelStr := JStr.jsonC (Json.obj [])
    assets := []
    templateEngine := ("golang") }

/-- Path of the body member. -/
def indexPath : List Char := ("index.html").data

/-- Path of the header member. -/
def headerPath : List Char := ("header.html").data

/-- Path of the footer member. -/
def footerPath : List Char := ("footer.html").data

/-- Path of the options member. -/
def optionsPath : List Char := ("options.json").data

/-- Path of the example-model member. -/
def exampleModelPath : List Char := ("example-model.json").data

/-- Selection flags of `packBundle` (`IncludedFiles`); an omitted flag of the
TypeScript record is `undefined`, identified with `false` by JS truthiness. -/
structure IncludedFiles where
  index : Bool
  header : Bool
  footer : Bool
  options : Bool
  assets : Bool
  exampleModel : Bool
deriving DecidableEq

/-- The full default selection (`includedFilesAll`). -/
def includedFilesAll : IncludedFiles :=
  { index := true
    header := true
    footer := true
    options := true
    assets := true
    exampleModel := true }

/-- The one error `packBundle` can raise: `JSON.parse(data.modelStr)` throws
on an invalid example-model string (the spec names it `MalformedModel`). -/
inductive PackErr where
  | malformedModel : PackErr
deriving DecidableEq

/-- `packBundle(data, includedFiles)`: builds the zip by conditionally adding
the five member kinds and one entry per asset, in source order.  The only
failure is `JSON.parse` on the model string; it aborts the whole pack. -/
def packBundle (data : RenderTemplateDataViewModel)
    (includedFiles : IncludedFiles) : Except PackErr Archive :=
  let z0 := Archive.empty
  let z1 := if includedFiles.index then
      z0.file indexPath (EContent.text data.htmlTemplate)
    else z0
  let z2 := if includedFiles.header && !data.headerHtmlTemplate.isEmptyS then
      z1.file headerPath (EContent.text data.headerHtmlTemplate)
    else z1
  let z3 := if includedFiles.footer && !data.footerHtmlTemplate.isEmptyS then
      z2.file footerPath (EContent.text data.footerHtmlTemplate)
    else z2
  let z4 := if includedFiles.options then
      z3.file optionsPath
        (EContent.text (JStr.jsonC (optionsToJson data.options)))
    else z3
  let withAssets := fun (z : Archive) =>
    if includedFiles.assets then
      data.assets.foldl
        (fun zz a =>
          zz.file (assetsPrefix ++ a.name) (EContent.bin a.blob))
        z
    else z
  if includedFiles.exampleModel then
    match data.modelStr.jsonParse with
    | none => Except.error PackErr.malformedModel
    | some v =>
        Except.ok (withAssets
          (z4.file exampleModelPath
            (EContent.text (JStr.jsonC v))))
  else
    Except.ok (withAssets z4)

/-- A decode failure of `loadBundle`: a `SyntaxError` thrown by `JSON.parse`
on the named member (the spec calls the example-model case `MalformedModel`). -/
inductive LoadErr where
  | parseError (member : String) : LoadErr
deriving DecidableEq

/-- Outcome of `loadBundle`: the state the in-place-mutated target had when
control left the function, and the error when it left by a throw. -/
structure LoadResult where
  target : RenderTemplateDataViewModel
  error : Option LoadErr

/-- Reading a member as a string: `zip.files[p]?.async("string")`. -/
def readText (zip : Archive) (p : List Char) : Option JStr :=
  (zip.findFile p).map EContent.asString

/-- The asset-collection loop of `loadBundle`: every entry strictly below the
assets folder, in archive order, read as a blob, named by the path with the
folder prefix stripped. -/
def collectAssets (zip : Archive) : List Asset :=
  zip.filterMap (fun e =>
    if assetFolderPath.isPrefixOf e.1 && !decide (e.1 = assetFolderPath) then
      some { name := e.1.drop assetFolderPath.length, blob := e.2.asBlob }
    else none)

/-- The final step of `loadBundle`: a non-empty collected asset list replaces
the target's assets wholesale. -/
def assetsStep (t : RenderTemplateDataViewModel) (assets : List Asset) :
    LoadResult :=
  { target := if assets.length > 0 then { t with assets := assets } else t
    error := none }

/-- The example-model step of `loadBundle`: a truthy string is parsed — a
`SyntaxError` aborts the load here — and on success both the model value and
its 2-space pretty string form are installed. -/
def modelStep (t : RenderTemplateDataViewModel) (exampleModelStr : JStr)
    (assets : List Asset) : LoadResult :=
  if exampleModelStr.isEmptyS then assetsStep t assets
  else
    match exampleModelStr.jsonParse with
    | none => { target := t, error := some (LoadErr.parseError ("example-model.json")) }
    | some v =>
        assetsStep { t with model := v, modelStr := JStr.jsonP v } assets

/-- `if (indexStr) { target.htmlTemplate = indexStr }`: a truthy member
string overwrites the body. -/
def indexStep (cur : Option JStr) (t : RenderTemplateDataViewModel) :
    RenderTemplateDataViewModel :=
  match cur with
  | some s => if s.isEmptyS then t else { t with htmlTemplate := s }
  | none => t

/-- `if (headerStr) { target.headerHtmlTemplate = headerStr }`. -/
def headerStep (cur : Option JStr) (t : RenderTemplateDataViewModel) :
    RenderTemplateDataViewModel :=
  match cur with
  | some s => if s.isEmptyS then t else { t with headerHtmlTemplate := s }
  | none => t

/-- `if (footerStr) { target.footerHtmlTemplate = footerStr }`. -/
def footerStep (cur : Option JStr) (t : RenderTemplateDataViewModel) :
    RenderTemplateDataViewModel :=
  match cur with
  | some s => if s.isEmptyS then t else { t with footerHtmlTemplate := s }
  | none => t

/-- `if (optionsStr) { target.options = {...getBaseOptions(), ...JSON.parse(optionsStr)} }`:
a truthy options string is parsed — a `SyntaxError` aborts the load here —
and the parsed keys are merged over the baseline defaults. -/
def optionsStep (cur : Option JStr) (t : RenderTemplateDataViewModel) :
    Except LoadErr RenderTemplateDataViewModel :=
  match cur with
  | some s =>
      if s.isEmptyS then Except.ok t
      else
        match s.jsonParse with
        | none => Except.error (LoadErr.parseError ("options.json"))
        | some j =>
            Except.ok
              { t with
                options := mergeOptions getBaseOptions (jsonToPartialOptions j) }
  | none => Except.ok t

/-- `loadBundle(bundleBufferSrc, target)`: reads the five member strings and
the asset entries, then overwrites the target field by field in source order
(body, header, footer, options, example model, assets).  The target is
mutated in place, so a throw leaves the fields assigned so far overwritten;
the missing example-model member defaults to the string rendering of the
empty object (`?? "{}"`). -/
def loadBundle (zip : Archive) (target : RenderTemplateDataViewModel) :
    LoadResult :=
  let indexStr := readText zip indexPath
  let headerStr := readText zip headerPath
  let footerStr := readText zip footerPath
  let optionsStr := readText zip optionsPath
  let exampleModelStr := (readText zip exampleModelPath).getD
    (JStr.jsonC (Json.obj []))
  let assets := collectAssets zip
  let t3 := footerStep footerStr (headerStep headerStr (indexStep indexStr target))
  match optionsStep optionsStr t3 with
  | .error e => { target := t3, error := some e }
  | .ok t4 => modelStep t4 exampleModelStr assets

/-- A remote bundle identity (`BundleInfo`). -/
structure BundleInfo where
  id : String
  name : String
deriving DecidableEq

/-- The reconciler state of `useBundleHandling`, bound to one live session:
the reactive session object, the current bundle reference, the dirty flag,
the last error message, and the `currentBundle` key of local storage. -/
structure HandlingState where
  session : RenderTemplateDataViewModel
  currentBundle : Option BundleInfo
  dirty : Bool
  bundleError : Option String
  localStore : Option String

/-- The state the composable starts from: the bound session, no current
bundle, clean, no error. -/
def initialState (session : RenderTemplateDataViewModel) : HandlingState :=
  { session := session
    currentBundle := none
    dirty := false
    bundleError := none
    localStore := none }

/-- A human-readable rendering of a load error, as caught and interpolated
into the error banner. -/
def LoadErr.message : LoadErr → String
  | .parseError m => ("SyntaxError in ") ++ m

/-- The deep session watcher of `useBundleHandling`:
`watch(reactiveRenderTemplateDataViewModel, () => dirty.value = true)`.
A reactive set fires it when the new value differs from the old — compared
by value for a primitive field, by reference for an object field.  Every
object the load path installs (options, a non-primitive model, assets) is
freshly allocated, so any structural change of the session comes from a set
the watcher counts as a change; the model therefore fires on structural
change of the session.  (The remaining corner — a re-installed object that
is structurally equal to the old one, which the watcher would also count —
is not distinguished by any theorem below.) -/
def markDirtyOnChange (old new : RenderTemplateDataViewModel) (dirty : Bool) :
    Bool :=
  if new = old then dirty else true

/-- What the remote fetch of `getBundle(id)` came back with: the `fetch`
call threw, the response was not ok, the body could not be opened as a zip
(`JsZip.loadAsync` threw), or a bundle with its name and engine tag.  The
remote directory is an external collaborator, so its answer is a parameter.
The swagger enum table maps the tag to itself here; the table lives outside
the sources. -/
inductive FetchOutcome where
  | transport (msg : String) : FetchOutcome
  | httpError (statusText : String) : FetchOutcome
  | corrupt (msg : String) : FetchOutcome
  | ok (archive : Archive) (name : String) (templateEngine : String) : FetchOutcome

/-- `getBundle(id)`: on any throw or non-ok response — before the bound
session was touched — only `bundleError` is set; a decode throw keeps
whatever `loadBundle` already wrote into the bound session, and the deep
watcher has marked `dirty` if those writes changed it, with nothing running
afterwards to clear it; on success the engine tag is installed,
`currentBundle` becomes `{id, name}` and the explicit `dirty = false` of the
success path runs after every mutation, ending the state clean. -/
def getBundle (id : String) (outcome : FetchOutcome) (st : HandlingState) :
    HandlingState :=
  match outcome with
  | .transport m =>
      { st with bundleError := some (("Error loading bundle: ") ++ m) }
  | .httpError s =>
      { st with bundleError := some (("Error loading bundle: ") ++ s) }
  | .corrupt m =>
      { st with bundleError := some (("Error loading bundle: ") ++ m) }
  | .ok archive name tag =>
      let lb := loadBundle archive st.session
      match lb.error with
      | some e =>
          { st with
            session := lb.target
            dirty := markDirtyOnChange st.session lb.target st.dirty
            bundleError := some (("Error loading bundle: ") ++ e.message) }
      | none =>
          { st with
            session := { lb.target with templateEngine := tag }
            currentBundle := some { id := id, name := name }
            dirty := false }

/-- The response of the remote store call. -/
structure SaveResp where
  id : String
deriving DecidableEq

/-- `storeBundle(name)`: packs the full bound session and sends it to the
remote store — whose answer is a parameter, being an external collaborator.
Any throw (pack or transport) is caught: `bundleError` is set and the empty
id is returned; on success `currentBundle` becomes the new id/name pair,
`dirty` is cleared and the new id is returned. -/
def storeBundle (name : String) (remote : Except String SaveResp)
    (st : HandlingState) : String × HandlingState :=
  match packBundle st.session includedFilesAll with
  | .error _ =>
      ((""),
        { st with
          bundleError :=
            some (("Error saving bundle: SyntaxError in example-model")) })
  | .ok _bundle =>
      match remote with
      | .error e =>
          ((""), { st with bundleError := some (("Error saving bundle: ") ++ e) })
      | .ok res =>
          (res.id,
            { st with
              currentBundle := some { id := res.id, name := name }
              dirty := false })

/-- The `bundleFileInputModel` watcher: a chosen local file is decoded into
the bound session, then `currentBundle` is cleared and the resume pointer is
removed from local storage (`cleanLocalStorageBundle`).  The watcher body has
no catch: a decode throw skips the two clearing steps.  No line of this
path assigns `dirty`; the deep session watcher alone marks it when the
decode changed the session. -/
def importLocalFile (archive : Archive) (st : HandlingState) : HandlingState :=
  let lb := loadBundle archive st.session
  let d := markDirtyOnChange st.session lb.target st.dirty
  match lb.error with
  | some _ =>
      { st with
        session := lb.target
        dirty := d }
  | none =>
      { st with
        session := lb.target
        dirty := d
        currentBundle := none
        localStore := none }
/-- An archive whose options member stores only the landscape key. -/
def zipOneOption : Archive :=
  [(optionsPath, EContent.text (JStr.jsonC
    (Json.obj [(("landscape"), Json.bool true)])))]

/-- A target session with distinctive values in every field, used to observe
which fields an operation overwrites. -/
def richTarget : RenderTemplateDataViewModel :=
  { htmlTemplate := JStr.plain ("<p>old body</p>")
    headerHtmlTemplate := JStr.plain ("<p>old header</p>")
    footerHtmlTemplate := JStr.plain ("<p>old footer</p>")
    options := { pageFormat := Json.str ("Letter")
                 landscape := Json.bool true
                 margins := Json.num 9 }
    model := Json.num 5
    modelStr := JStr.jsonC (Json.num 5)
    assets := [{ name := ("old.bin").data, blob := [9, 9] }]
    templateEngine := ("handlebars") }

/-- An archive holding only a header member. -/
def zipHeaderOnly : Archive :=
  [(headerPath, EContent.text (JStr.plain ("<b>new header</b>")))]

/-- An archive whose example-model member is present with empty content. -/
def zipEmptyModel : Archive :=
  [(exampleModelPath, EContent.text (JStr.plain ("")))]

/-- An archive whose options member is present with empty content. -/
def zipEmptyOptions : Archive :=
  [(optionsPath, EContent.text (JStr.plain ("")))]

/-- An archive with a body member and an unparseable example-model member. -/
def zipBadModel : Archive :=
  [(indexPath, EContent.text (JStr.plain ("<p>new body</p>"))),
   (exampleModelPath, EContent.text (JStr.plain (":")))]

/-- An archive whose three text members are all present with empty content. -/
def zipEmptyTexts : Archive :=
  [(indexPath, EContent.text (JStr.plain (""))),
   (headerPath, EContent.text (JStr.plain (""))),
   (footerPath, EContent.text (JStr.plain ("")))]

/-- An archive holding only a body member. -/
def zipBodyOnly : Archive :=
  [(indexPath, EContent.text (JStr.plain ("<p>new body</p>")))]

/-- A session exercising every member kind, for the round trip. -/
def roundtripSession : RenderTemplateDataViewModel :=
  { htmlTemplate := JStr.plain ("<p>b</p>")
    headerHtmlTemplate := JStr.plain ("<p>h</p>")
    footerHtmlTemplate := JStr.plain ("<p>f</p>")
    options := { pageFormat := Json.str ("Letter")
                 landscape := Json.bool true
                 margins := Json.num 9 }
    model := Json.num 1
    modelStr := JStr.jsonC (Json.num 1)
    assets := [{ name := ("logo.png").data, blob := [1, 2, 3] }]
    templateEngine := ("golang") }

/-- The end-to-end scenario session of the spec: a body, A4 portrait
options, the empty-object model, no header, footer or assets. -/
def endToEndSession : RenderTemplateDataViewModel :=
  { htmlTemplate := JStr.plain ("<p>hi</p>")
    headerHtmlTemplate := JStr.plain ("")
    footerHtmlTemplate := JStr.plain ("")
    options := { pageFormat := Json.str ("A4")
                 landscape := Json.bool false
                 margins := getBaseOptions.margins }
    model := Json.obj []
    modelStr := JStr.jsonC (Json.obj [])
    assets := []
    templateEngine := ("golang") }

/-- A session whose example-model string is not valid JSON. -/
def badModelSession : RenderTemplateDataViewModel :=
  { getBaseRenderData with modelStr := JStr.plain (":") }

/-- The freshly constructed reconciler state over the default session. -/
def baseState : HandlingState := initialState getBaseRenderData

/-- A fully populated reconciler state: linked to a remote bundle, dirty,
with a resume pointer in local storage. -/
def richState : HandlingState :=
  { session := richTarget
    currentBundle := some { id := ("b0"), name := ("n0") }
    dirty := true
    bundleError := none
    localStore := some ("b0") }

/-- `indexStep` leaves `headerHtmlTemplate` unchanged. -/
@[simp] lemma indexStep_headerHtmlTemplate (c : Option JStr) (t : RenderTemplateDataViewModel) :
    (indexStep c t).headerHtmlTemplate = t.headerHtmlTemplate := by
  unfold indexStep
  repeat' split
  all_goals rfl

/-- `indexStep` leaves `footerHtmlTemplate` unchanged. -/
@[simp] lemma indexStep_footerHtmlTemplate (c : Option JStr) (t : RenderTemplateDataViewModel) :
    (indexStep c t).footerHtmlTemplate = t.footerHtmlTemplate := by
  unfold indexStep
  repeat' split
  all_goals rfl

/-- `indexStep` leaves `options` unchanged. -/
@[simp] lemma indexStep_options (c : Option JStr) (t : RenderTemplateDataViewModel) :
    (indexStep c t).options = t.options := by
  unfold indexStep
  repeat' split
  all_goals rfl

/-- `indexStep` leaves `model` unchanged. -/
@[simp] lemma indexStep_model (c : Option JStr) (t : RenderTemplateDataViewModel) :
    (indexStep c t).model = t.model := by
  unfold indexStep
  repeat' split
  all_goals rfl

/-- `indexStep` leaves `modelStr` unchanged. -/
@[simp] lemma indexStep_modelStr (c : Option JStr) (t : RenderTemplateDataViewModel) :
    (indexStep c t).modelStr = t.modelStr := by
  unfold indexStep
  repeat' split
  all_goals rfl

/-- `indexStep` leaves `assets` unchanged. -/
@[simp] lemma indexStep_assets (c : Option JStr) (t : RenderTemplateDataViewModel) :
    (indexStep c t).assets = t.assets := by
  unfold indexStep
  repeat' split
  all_goals rfl

/-- `indexStep` leaves `templateEngine` unchanged. -/
@[simp] lemma indexStep_templateEngine (c : Option JStr) (t : RenderTemplateDataViewModel) :
    (indexStep c t).templateEngine = t.templateEngine := by
  unfold indexStep
  repeat' split
  all_goals rfl

/-- `headerStep` leaves `htmlTemplate` unchanged. -/
@[simp] lemma headerStep_htmlTemplate (c : Option JStr) (t : RenderTemplateDataViewModel) :
    (headerStep c t).htmlTemplate = t.htmlTemplate := by
  unfold headerStep
  repeat' split
  all_goals rfl

/-- `headerStep` leaves `footerHtmlTemplate` unchanged. -/
@[simp] lemma headerStep_footerHtmlTemplate (c : Option JStr) (t : RenderTemplateDataViewModel) :
    (headerStep c t).footerHtmlTemplate = t.footerHtmlTemplate := by
  unfold headerStep
  repeat' split
  all_goals rfl

/-- `headerStep` leaves `options` unchanged. -/
@[simp] lemma headerStep_options (c : Option JStr) (t : RenderTemplateDataViewModel) :
    (headerStep c t).options = t.options := by
  unfold headerStep
  repeat' split
  all_goals rfl

/-- `headerStep` leaves `model` unchanged. -/
@[simp] lemma headerStep_model (c : Option JStr) (t : RenderTemplateDataViewModel) :
    (headerStep c t).model = t.model := by
  unfold headerStep
  repeat' split
  all_goals rfl

/-- `headerStep` leaves `modelStr` unchanged. -/
@[simp] lemma headerStep_modelStr (c : Option JStr) (t : RenderTemplateDataViewModel) :
    (headerStep c t).modelStr = t.modelStr := by
  unfold headerStep
  repeat' split
  all_goals rfl

/-- `headerStep` leaves `assets` unchanged. -/
@[simp] lemma headerStep_assets (c : Option JStr) (t : RenderTemplateDataViewModel) :
    (headerStep c t).assets = t.assets := by
  unfold headerStep
  repeat' split
  all_goals rfl

/-- `headerStep` leaves `templateEngine` unchanged. -/
@[simp] lemma headerStep_templateEngine (c : Option JStr) (t : RenderTemplateDataViewModel) :
    (headerStep c t).templateEngine = t.templateEngine := by
  unfold headerStep
  repeat' split
  all_goals rfl

/-- `footerStep` leaves `htmlTemplate` unchanged. -/
@[simp] lemma footerStep_htmlTemplate (c : Option JStr) (t : RenderTemplateDataViewModel) :
    (footerStep c t).htmlTemplate = t.htmlTemplate := by
  unfold footerStep
  repeat' split
  all_goals rfl

/-- `footerStep` leaves `headerHtmlTemplate` unchanged. -/
@[simp] lemma footerStep_headerHtmlTemplate (c : Option JStr) (t : RenderTemplateDataViewModel) :
    (footerStep c t).headerHtmlTemplate = t.headerHtmlTemplate := by
  unfold footerStep
  repeat' split
  all_goals rfl

/-- `footerStep` leaves `options` unchanged. -/
@[simp] lemma footerStep_options (c : Option JStr) (t : RenderTemplateDataViewModel) :
    (footerStep c t).options = t.options := by
  unfold footerStep
  repeat' split
  all_goals rfl

/-- `footerStep` leaves `model` unchanged. -/
@[simp] lemma footerStep_model (c : Option JStr) (t : RenderTemplateDataViewModel) :
    (footerStep c t).model = t.model := by
  unfold footerStep
  repeat' split
  all_goals rfl

/-- `footerStep` leaves `modelStr` unchanged. -/
@[simp] lemma footerStep_modelStr (c : Option JStr) (t : RenderTemplateDataViewModel) :
    (footerStep c t).modelStr = t.modelStr := by
  unfold footerStep
  repeat' split
  all_goals rfl

/-- `footerStep` leaves `assets` unchanged. -/
@[simp] lemma footerStep_assets (c : Option JStr) (t : RenderTemplateDataViewModel) :
    (footerStep c t).assets = t.assets := by
  unfold footerStep
  repeat' split
  all_goals rfl

/-- `footerStep` leaves `templateEngine` unchanged. -/
@[simp] lemma footerStep_templateEngine (c : Option JStr) (t : RenderTemplateDataViewModel) :
    (footerStep c t).templateEngine = t.templateEngine := by
  unfold footerStep
  repeat' split
  all_goals rfl

/-- `assetsStep` leaves `htmlTemplate` unchanged. -/
@[simp] lemma assetsStep_htmlTemplate (t : RenderTemplateDataViewModel) (l : List Asset) :
    (assetsStep t l).target.htmlTemplate = t.htmlTemplate := by
  unfold assetsStep
  repeat' split
  all_goals rfl

/-- `assetsStep` leaves `headerHtmlTemplate` unchanged. -/
@[simp] lemma assetsStep_headerHtmlTemplate (t : RenderTemplateDataViewModel) (l : List Asset) :
    (assetsStep t l).target.headerHtmlTemplate = t.headerHtmlTemplate := by
  unfold assetsStep
  repeat' split
  all_goals rfl

/-- `assetsStep` leaves `footerHtmlTemplate` unchanged. -/
@[simp] lemma assetsStep_footerHtmlTemplate (t : RenderTemplateDataViewModel) (l : List Asset) :
    (assetsStep t l).target.footerHtmlTemplate = t.footerHtmlTemplate := by
  unfold assetsStep
  repeat' split
  all_goals rfl

/-- `assetsStep` leaves `options` unchanged. -/
@[simp] lemma assetsStep_options (t : RenderTemplateDataViewModel) (l : List Asset) :
    (assetsStep t l).target.options = t.options := by
  unfold assetsStep
  repeat' split
  all_goals rfl

/-- `assetsStep` leaves `model` unchanged. -/
@[simp] lemma assetsStep_model (t : RenderTemplateDataViewModel) (l : List Asset) :
    (assetsStep t l).target.model = t.model := by
  unfold assetsStep
  repeat' split
  all_goals rfl

/-- `assetsStep` leaves `modelStr` unchanged. -/
@[simp] lemma assetsStep_modelStr (t : RenderTemplateDataViewModel) (l : List Asset) :
    (assetsStep t l).target.modelStr = t.modelStr := by
  unfold assetsStep
  repeat' split
  all_goals rfl

/-- `assetsStep` leaves `templateEngine` unchanged. -/
@[simp] lemma assetsStep_templateEngine (t : RenderTemplateDataViewModel) (l : List Asset) :
    (assetsStep t l).target.templateEngine = t.templateEngine := by
  unfold assetsStep
  repeat' split
  all_goals rfl

/-- `modelStep` leaves `htmlTemplate` unchanged. -/
@[simp] lemma modelStep_htmlTemplate (t : RenderTemplateDataViewModel) (e : JStr) (l : List Asset) :
    (modelStep t e l).target.htmlTemplate = t.htmlTemplate := by
  unfold modelStep assetsStep
  repeat' split
  all_goals rfl

/-- `modelStep` leaves `headerHtmlTemplate` unchanged. -/
@[simp] lemma modelStep_headerHtmlTemplate (t : RenderTemplateDataViewModel) (e : JStr) (l : List Asset) :
    (modelStep t e l).target.headerHtmlTemplate = t.headerHtmlTemplate := by
  unfold modelStep assetsStep
  repeat' split
  all_goals rfl

/-- `modelStep` leaves `footerHtmlTemplate` unchanged. -/
@[simp] lemma modelStep_footerHtmlTemplate (t : RenderTemplateDataViewModel) (e : JStr) (l : List Asset) :
    (modelStep t e l).target.footerHtmlTemplate = t.footerHtmlTemplate := by
  unfold modelStep assetsStep
  repeat' split
  all_goals rfl

/-- `modelStep` leaves `options` unchanged. -/
@[simp] lemma modelStep_options (t : RenderTemplateDataViewModel) (e : JStr) (l : List Asset) :
    (modelStep t e l).target.options = t.options := by
  unfold modelStep assetsStep
  repeat' split
  all_goals rfl

/-- `modelStep` leaves `templateEngine` unchanged. -/
@[simp] lemma modelStep_templateEngine (t : RenderTemplateDataViewModel) (e : JStr) (l : List Asset) :
    (modelStep t e l).target.templateEngine = t.templateEngine := by
  unfold modelStep assetsStep
  repeat' split
  all_goals rfl


/-- An absent body member leaves the target unchanged. -/
@[simp] lemma indexStep_none (t : RenderTemplateDataViewModel) :
    indexStep none t = t := rfl

/-- An absent header member leaves the target unchanged. -/
@[simp] lemma headerStep_none (t : RenderTemplateDataViewModel) :
    headerStep none t = t := rfl

/-- An absent footer member leaves the target unchanged. -/
@[simp] lemma footerStep_none (t : RenderTemplateDataViewModel) :
    footerStep none t = t := rfl

/-- An absent options member leaves the target unchanged. -/
@[simp] lemma optionsStep_none (t : RenderTemplateDataViewModel) :
    optionsStep none t = Except.ok t := rfl

/-- A present-but-empty body member leaves the target unchanged. -/
lemma indexStep_some_empty (s : JStr) (t : RenderTemplateDataViewModel)
    (h : s.isEmptyS = true) : indexStep (some s) t = t := by
  simp [indexStep, h]

/-- A truthy body member overwrites the body. -/
lemma indexStep_some_truthy (s : JStr) (t : RenderTemplateDataViewModel)
    (h : s.isEmptyS = false) :
    indexStep (some s) t = { t with htmlTemplate := s } := by
  simp [indexStep, h]

/-- A present-but-empty header member leaves the target unchanged. -/
lemma headerStep_some_empty (s : JStr) (t : RenderTemplateDataViewModel)
    (h : s.isEmptyS = true) : headerStep (some s) t = t := by
  simp [headerStep, h]

/-- A truthy header member overwrites the header. -/
lemma headerStep_some_truthy (s : JStr) (t : RenderTemplateDataViewModel)
    (h : s.isEmptyS = false) :
    headerStep (some s) t = { t with headerHtmlTemplate := s } := by
  simp [headerStep, h]

/-- A present-but-empty footer member leaves the target unchanged. -/
lemma footerStep_some_empty (s : JStr) (t : RenderTemplateDataViewModel)
    (h : s.isEmptyS = true) : footerStep (some s) t = t := by
  simp [footerStep, h]

/-- A truthy footer member overwrites the footer. -/
lemma footerStep_some_truthy (s : JStr) (t : RenderTemplateDataViewModel)
    (h : s.isEmptyS = false) :
    footerStep (some s) t = { t with footerHtmlTemplate := s } := by
  simp [footerStep, h]

/-- A present-but-empty options member leaves the target unchanged. -/
lemma optionsStep_some_empty (s : JStr) (t : RenderTemplateDataViewModel)
    (h : s.isEmptyS = true) : optionsStep (some s) t = Except.ok t := by
  simp [optionsStep, h]

/-- A truthy unparseable options member raises the options syntax error. -/
lemma optionsStep_some_bad (s : JStr) (t : RenderTemplateDataViewModel)
    (h : s.isEmptyS = false) (hp : s.jsonParse = none) :
    optionsStep (some s) t = Except.error (LoadErr.parseError ("options.json")) := by
  simp [optionsStep, h, hp]

/-- A truthy parseable options member merges the parsed keys over the
baseline defaults. -/
lemma optionsStep_some_good (s : JStr) (t : RenderTemplateDataViewModel)
    (j : Json) (h : s.isEmptyS = false) (hp : s.jsonParse = some j) :
    optionsStep (some s) t =
      Except.ok
        { t with options := mergeOptions getBaseOptions (jsonToPartialOptions j) } := by
  simp [optionsStep, h, hp]

/-- A successful options step changes at most the options field. -/
lemma optionsStep_frame (c : Option JStr) (t t4 : RenderTemplateDataViewModel)
    (h : optionsStep c t = Except.ok t4) :
    t4 = { t with options := t4.options } := by
  unfold optionsStep at h
  repeat' split at h
  all_goals (cases h <;> rfl)

/-- An empty example-model string skips the model step. -/
lemma modelStep_empty (t : RenderTemplateDataViewModel) (e : JStr)
    (l : List Asset) (h : e.isEmptyS = true) :
    modelStep t e l = assetsStep t l := by
  simp [modelStep, h]

/-- A truthy unparseable example-model string raises the model syntax error
with the target as it stands. -/
lemma modelStep_bad (t : RenderTemplateDataViewModel) (e : JStr)
    (l : List Asset) (h : e.isEmptyS = false) (hp : e.jsonParse = none) :
    modelStep t e l =
      { target := t, error := some (LoadErr.parseError ("example-model.json")) } := by
  simp [modelStep, h, hp]

/-- A truthy parseable example-model string installs the value and its
pretty string form. -/
lemma modelStep_good (t : RenderTemplateDataViewModel) (e : JStr) (v : Json)
    (l : List Asset) (h : e.isEmptyS = false) (hp : e.jsonParse = some v) :
    modelStep t e l =
      assetsStep { t with model := v
                          modelStr := JStr.jsonP v } l := by
  simp [modelStep, h, hp]

/-- The assets step never raises. -/
@[simp] lemma assetsStep_error (t : RenderTemplateDataViewModel) (l : List Asset) :
    (assetsStep t l).error = none := by
  unfold assetsStep
  split
  all_goals rfl

/-- The collected assets replace the target's assets exactly when there is
at least one of them. -/
lemma assetsStep_assets (t : RenderTemplateDataViewModel) (l : List Asset) :
    (assetsStep t l).target.assets = if l.length > 0 then l else t.assets := by
  unfold assetsStep
  split
  all_goals simp_all

/-- `JSON.stringify` output is never empty. -/
@[simp] lemma isEmptyS_jsonC (v : Json) : (JStr.jsonC v).isEmptyS = false := rfl

/-- Pretty `JSON.stringify` output is never empty. -/
@[simp] lemma isEmptyS_jsonP (v : Json) : (JStr.jsonP v).isEmptyS = false := rfl

/-- `JSON.parse` of a compact rendering. -/
@[simp] lemma jsonParse_jsonC (v : Json) : (JStr.jsonC v).jsonParse = some v := rfl

/-- `JSON.parse` of a pretty rendering. -/
@[simp] lemma jsonParse_jsonP (v : Json) : (JStr.jsonP v).jsonParse = some v := rfl

/-- `JSON.parse` of a non-document string throws. -/
@[simp] lemma jsonParse_plain (s : String) : (JStr.plain s).jsonParse = none := rfl


/-- The body the body step leaves behind, as a function of the member. -/
lemma indexStep_out (c : Option JStr) (t : RenderTemplateDataViewModel) :
    (indexStep c t).htmlTemplate =
      (match c with
        | some s => if s.isEmptyS then t.htmlTemplate else s
        | none => t.htmlTemplate) := by
  unfold indexStep
  repeat' split
  all_goals rfl

/-- The header the header step leaves behind, as a function of the member. -/
lemma headerStep_out (c : Option JStr) (t : RenderTemplateDataViewModel) :
    (headerStep c t).headerHtmlTemplate =
      (match c with
        | some s => if s.isEmptyS then t.headerHtmlTemplate else s
        | none => t.headerHtmlTemplate) := by
  unfold headerStep
  repeat' split
  all_goals rfl

/-- The footer the footer step leaves behind, as a function of the member. -/
lemma footerStep_out (c : Option JStr) (t : RenderTemplateDataViewModel) :
    (footerStep c t).footerHtmlTemplate =
      (match c with
        | some s => if s.isEmptyS then t.footerHtmlTemplate else s
        | none => t.footerHtmlTemplate) := by
  unfold footerStep
  repeat' split
  all_goals rfl

/-- The body after a load is whatever the body step produced: the rest of
the pipeline never touches it. -/
lemma loadBundle_target_htmlTemplate (zip : Archive) (t : RenderTemplateDataViewModel) :
    (loadBundle zip t).target.htmlTemplate =
      (indexStep (readText zip indexPath) t).htmlTemplate := by
  simp only [loadBundle]
  split
  · simp
  case _ t4 h =>
    rw [modelStep_htmlTemplate, optionsStep_frame _ _ _ h]
    simp

/-- The header after a load is whatever the header step produced on the
original target: no other step touches the header. -/
lemma loadBundle_target_headerHtmlTemplate (zip : Archive) (t : RenderTemplateDataViewModel) :
    (loadBundle zip t).target.headerHtmlTemplate =
      (headerStep (readText zip headerPath) t).headerHtmlTemplate := by
  simp only [loadBundle]
  split
  · simp [headerStep_out]
  case _ t4 h =>
    rw [modelStep_headerHtmlTemplate, optionsStep_frame _ _ _ h]
    simp [headerStep_out]

/-- The footer after a load is whatever the footer step produced on the
original target: no other step touches the footer. -/
lemma loadBundle_target_footerHtmlTemplate (zip : Archive) (t : RenderTemplateDataViewModel) :
    (loadBundle zip t).target.footerHtmlTemplate =
      (footerStep (readText zip footerPath) t).footerHtmlTemplate := by
  simp only [loadBundle]
  split
  · simp [footerStep_out]
  case _ t4 h =>
    rw [modelStep_footerHtmlTemplate, optionsStep_frame _ _ _ h]
    simp [footerStep_out]

/-- A load never touches the engine tag. -/
lemma loadBundle_target_templateEngine (zip : Archive) (t : RenderTemplateDataViewModel) :
    (loadBundle zip t).target.templateEngine = t.templateEngine := by
  simp only [loadBundle]
  split
  · simp
  case _ t4 h =>
    rw [modelStep_templateEngine, optionsStep_frame _ _ _ h]
    simp

/-- Whether the options step raises depends only on the member string. -/
lemma optionsStep_error_iff (c : Option JStr) (t : RenderTemplateDataViewModel) :
    (∃ e, optionsStep c t = Except.error e) ↔
      (∃ s, c = some s ∧ s.isEmptyS = false ∧ s.jsonParse = none) := by
  rcases c with _ | s
  · simp [optionsStep]
  · by_cases he : s.isEmptyS
    · simp [optionsStep, he]
    · rcases hp : s.jsonParse with _ | j
      · simp [optionsStep, he, hp]
      · simp [optionsStep, he, hp]

/-- The options value after a load, as a function of the member string;
valid regardless of whether a later step raised. -/
lemma loadBundle_target_options (zip : Archive) (t : RenderTemplateDataViewModel) :
    (loadBundle zip t).target.options =
      (match readText zip optionsPath with
        | some s =>
            if s.isEmptyS then t.options
            else
              match s.jsonParse with
              | some j => mergeOptions getBaseOptions (jsonToPartialOptions j)
              | none => t.options
        | none => t.options) := by
  simp only [loadBundle]
  rcases hc : readText zip optionsPath with _ | s
  · rw [optionsStep_none]
    rw [modelStep_options]
    simp
  · by_cases he : s.isEmptyS
    · rw [optionsStep_some_empty _ _ he]
      rw [modelStep_options]
      simp [he]
    · rcases hp : s.jsonParse with _ | j
      · rw [optionsStep_some_bad _ _ (by simp [he]) hp]
        simp [he, hp]
      · rw [optionsStep_some_good _ _ _ (by simp [he]) hp]
        rw [modelStep_options]
        simp [he, hp]

/-- The example-model string a load works with: the member string, or the
compact rendering of the empty object when the member is absent. -/
def exampleModelStrOf (zip : Archive) : JStr :=
  (readText zip exampleModelPath).getD (JStr.jsonC (Json.obj []))

/-- The model value and string after a load that did not raise: the parse of
the example-model string unless that string was empty. -/
lemma loadBundle_model_out (zip : Archive) (t : RenderTemplateDataViewModel)
    (h : (loadBundle zip t).error = none) :
    (if (exampleModelStrOf zip).isEmptyS then
        (loadBundle zip t).target.model = t.model ∧
          (loadBundle zip t).target.modelStr = t.modelStr
      else
        ∃ v, (exampleModelStrOf zip).jsonParse = some v ∧
          (loadBundle zip t).target.model = v ∧
            (loadBundle zip t).target.modelStr = JStr.jsonP v) := by
  simp only [loadBundle, exampleModelStrOf] at h ⊢
  split at h
  · simp at h
  case _ t4 h4 =>
    have hframe := optionsStep_frame _ _ _ h4
    by_cases he : ((readText zip exampleModelPath).getD (JStr.jsonC (Json.obj []))).isEmptyS
    · rw [modelStep_empty _ _ _ he] at h ⊢
      rw [hframe]
      simp [he]
    · rcases hp : ((readText zip exampleModelPath).getD (JStr.jsonC (Json.obj []))).jsonParse with _ | v
      · rw [modelStep_bad _ _ _ (by simp [he]) hp] at h
        simp at h
      · rw [modelStep_good _ _ _ _ (by simp [he]) hp] at h ⊢
        simp [he, hp]

/-- A load that raised left the model value, the model string and the assets
exactly as they were. -/
lemma loadBundle_err_frame (zip : Archive) (t : RenderTemplateDataViewModel)
    (e : LoadErr) (h : (loadBundle zip t).error = some e) :
    (loadBundle zip t).target.model = t.model ∧
      (loadBundle zip t).target.modelStr = t.modelStr ∧
        (loadBundle zip t).target.assets = t.assets := by
  simp only [loadBundle] at h ⊢
  split at h
  case _ e2 h2 =>
    refine ⟨?_, ?_, ?_⟩ <;> simp
  case _ t4 h4 =>
    have hframe := optionsStep_frame _ _ _ h4
    by_cases he : ((readText zip exampleModelPath).getD (JStr.jsonC (Json.obj []))).isEmptyS
    · rw [modelStep_empty _ _ _ he] at h
      simp at h
    · rcases hp : ((readText zip exampleModelPath).getD (JStr.jsonC (Json.obj []))).jsonParse with _ | v
      · rw [modelStep_bad _ _ _ (by simp [he]) hp] at h ⊢
        rw [hframe]
        simp
      · rw [modelStep_good _ _ _ _ (by simp [he]) hp] at h
        simp at h

/-- The assets after a load that did not raise: the collected entries when
there is at least one, the old assets otherwise. -/
lemma loadBundle_assets_out (zip : Archive) (t : RenderTemplateDataViewModel)
    (h : (loadBundle zip t).error = none) :
    (loadBundle zip t).target.assets =
      (if (collectAssets zip).length > 0 then collectAssets zip else t.assets) := by
  simp only [loadBundle] at h ⊢
  split at h
  · simp at h
  case _ t4 h4 =>
    have hframe := optionsStep_frame _ _ _ h4
    by_cases he : ((readText zip exampleModelPath).getD (JStr.jsonC (Json.obj []))).isEmptyS
    · rw [modelStep_empty _ _ _ he] at h ⊢
      rw [assetsStep_assets, hframe]
      simp
    · rcases hp : ((readText zip exampleModelPath).getD (JStr.jsonC (Json.obj []))).jsonParse with _ | v
      · rw [modelStep_bad _ _ _ (by simp [he]) hp] at h
        simp at h
      · rw [modelStep_good _ _ _ _ (by simp [he]) hp] at h ⊢
        rw [assetsStep_assets, hframe]
        simp

/-- When a load raises, the error is a parse error on the options member or
on the example-model member. -/
lemma loadBundle_err_shape (zip : Archive) (t : RenderTemplateDataViewModel)
    (e : LoadErr) (h : (loadBundle zip t).error = some e) :
    e = LoadErr.parseError ("options.json") ∨
      e = LoadErr.parseError ("example-model.json") := by
  simp only [loadBundle] at h
  split at h
  case _ e2 h2 =>
    rcases (optionsStep_error_iff _ _).mp ⟨e2, h2⟩ with ⟨s, hc, he, hp⟩
    rw [hc] at h2
    rw [optionsStep_some_bad _ _ he hp] at h2
    cases h2
    simp at h
    left
    exact h.symm
  case _ t4 h4 =>
    by_cases he : ((readText zip exampleModelPath).getD (JStr.jsonC (Json.obj []))).isEmptyS
    · rw [modelStep_empty _ _ _ he] at h
      simp at h
    · rcases hp : ((readText zip exampleModelPath).getD (JStr.jsonC (Json.obj []))).jsonParse with _ | v
      · rw [modelStep_bad _ _ _ (by simp [he]) hp] at h
        simp at h
        right
        exact h.symm
      · rw [modelStep_good _ _ _ _ (by simp [he]) hp] at h
        simp at h

/-- A truthy unparseable example-model member makes the load raise. -/
lemma loadBundle_raises_of_bad_model (zip : Archive) (t : RenderTemplateDataViewModel)
    (he : (exampleModelStrOf zip).isEmptyS = false)
    (hp : (exampleModelStrOf zip).jsonParse = none) :
    ∃ e, (loadBundle zip t).error = some e := by
  simp only [loadBundle]
  simp only [exampleModelStrOf] at he hp
  split
  · simp
  case _ t4 h4 =>
    rw [modelStep_bad _ _ _ he hp]
    simp

/-- When the options member does not itself raise, a truthy unparseable
example-model member makes the load raise exactly the model parse error. -/
lemma loadBundle_model_error (zip : Archive) (t : RenderTemplateDataViewModel)
    (he : (exampleModelStrOf zip).isEmptyS = false)
    (hp : (exampleModelStrOf zip).jsonParse = none)
    (hops : ¬∃ s, readText zip optionsPath = some s ∧ s.isEmptyS = false ∧
      s.jsonParse = none) :
    (loadBundle zip t).error = some (LoadErr.parseError ("example-model.json")) := by
  simp only [loadBundle]
  simp only [exampleModelStrOf] at he hp
  split
  case _ e2 h2 =>
    exact absurd ((optionsStep_error_iff _ _).mp ⟨e2, h2⟩) hops
  case _ t4 h4 =>
    rw [modelStep_bad _ _ _ he hp]

/-- Adding a file at a path not yet present appends its entry. -/
lemma Archive.file_fresh (z : Archive) (p : List Char) (c : EContent)
    (h : z.hasPath p = false) : z.file p c = z ++ [(p, c)] := by
  unfold Archive.file
  unfold Archive.hasPath at h
  rw [h]
  simp

/-- The empty zip holds no path. -/
@[simp] lemma hasPath_empty (p : List Char) : Archive.empty.hasPath p = false := rfl

/-- Paths of a concatenation. -/
@[simp] lemma hasPath_append (z1 z2 : Archive) (p : List Char) :
    (z1 ++ z2).hasPath p = (z1.hasPath p || z2.hasPath p) := by
  simp [Archive.hasPath]

/-- Paths of a singleton. -/
@[simp] lemma hasPath_single (q : List Char) (c : EContent) (p : List Char) :
    Archive.hasPath [(q, c)] p = decide (q = p) := by
  simp [Archive.hasPath]

/-- The archive entries the asset loop of `packBundle` produces. -/
def assetEntries (l : List Asset) : Archive :=
  l.map (fun a => ((assetsPrefix ++ a.name), EContent.bin a.blob))

/-- An assets-folder path never collides with the body member path. -/
@[simp] lemma assetsPath_ne_indexPath (n : List Char) :
    decide ((assetsPrefix ++ n) = indexPath) = false := by
  rw [decide_eq_false_iff_not]
  simp [indexPath, assetsPrefix]

/-- An assets-folder path never collides with the header member path. -/
@[simp] lemma assetsPath_ne_headerPath (n : List Char) :
    decide ((assetsPrefix ++ n) = headerPath) = false := by
  rw [decide_eq_false_iff_not]
  simp [headerPath, assetsPrefix]

/-- An assets-folder path never collides with the footer member path. -/
@[simp] lemma assetsPath_ne_footerPath (n : List Char) :
    decide ((assetsPrefix ++ n) = footerPath) = false := by
  rw [decide_eq_false_iff_not]
  simp [footerPath, assetsPrefix]

/-- An assets-folder path never collides with the options member path. -/
@[simp] lemma assetsPath_ne_optionsPath (n : List Char) :
    decide ((assetsPrefix ++ n) = optionsPath) = false := by
  rw [decide_eq_false_iff_not]
  simp [optionsPath, assetsPrefix]

/-- An assets-folder path never collides with the example-model member path. -/
@[simp] lemma assetsPath_ne_exampleModelPath (n : List Char) :
    decide ((assetsPrefix ++ n) = exampleModelPath) = false := by
  rw [decide_eq_false_iff_not]
  simp [exampleModelPath, assetsPrefix]

/-- Assets-folder paths agree exactly when the asset names do. -/
lemma assetsPath_inj (n m : List Char) :
    ((assetsPrefix ++ n) = (assetsPrefix ++ m)) ↔ n = m := by
  constructor
  · intro h
    have h2 := congrArg (List.drop (assetsPrefix.length)) h
    simpa using h2
  · intro h
    rw [h]

/-- Folding the asset loop over fresh, pairwise distinct names appends one
entry per asset. -/
lemma foldl_file_assets (l : List Asset) (base : Archive)
    (hfresh : ∀ a ∈ l, base.hasPath (assetsPrefix ++ a.name) = false)
    (hnodup : (l.map Asset.name).Nodup) :
    l.foldl
      (fun zz a => zz.file (assetsPrefix ++ a.name) (EContent.bin a.blob))
      base = base ++ assetEntries l := by
  induction l generalizing base with
  | nil => simp [assetEntries]
  | cons a rest ih =>
      rw [List.foldl_cons]
      rw [Archive.file_fresh _ _ _ (hfresh a (by simp))]
      rw [ih (base ++ [((assetsPrefix ++ a.name), EContent.bin a.blob)])]
      · simp [assetEntries]
      · intro b hb
        rw [hasPath_append]
        rw [hfresh b (by simp [hb])]
        simp only [hasPath_single, Bool.false_or]
        rw [decide_eq_false_iff_not]
        rw [assetsPath_inj]
        intro hcontra
        rw [List.map_cons, List.nodup_cons] at hnodup
        exact hnodup.1 (hcontra ▸ List.mem_map_of_mem Asset.name hb)
      · rw [List.map_cons, List.nodup_cons] at hnodup
        exact hnodup.2
/-- The fixed member paths are pairwise distinct. -/
@[simp] lemma indexPath_ne_headerPath : decide (indexPath = headerPath) = false := by decide

/-- The fixed member paths are pairwise distinct. -/
@[simp] lemma indexPath_ne_footerPath : decide (indexPath = footerPath) = false := by decide

/-- The fixed member paths are pairwise distinct. -/
@[simp] lemma indexPath_ne_optionsPath : decide (indexPath = optionsPath) = false := by decide

/-- The fixed member paths are pairwise distinct. -/
@[simp] lemma indexPath_ne_exampleModelPath : decide (indexPath = exampleModelPath) = false := by decide

/-- The fixed member paths are pairwise distinct. -/
@[simp] lemma headerPath_ne_indexPath : decide (headerPath = indexPath) = false := by decide

/-- The fixed member paths are pairwise distinct. -/
@[simp] lemma headerPath_ne_footerPath : decide (headerPath = footerPath) = false := by decide

/-- The fixed member paths are pairwise distinct. -/
@[simp] lemma headerPath_ne_optionsPath : decide (headerPath = optionsPath) = false := by decide

/-- The fixed member paths are pairwise distinct. -/
@[simp] lemma headerPath_ne_exampleModelPath : decide (headerPath = exampleModelPath) = false := by decide

/-- The fixed member paths are pairwise distinct. -/
@[simp] lemma footerPath_ne_indexPath : decide (footerPath = indexPath) = false := by decide

/-- The fixed member paths are pairwise distinct. -/
@[simp] lemma footerPath_ne_headerPath : decide (footerPath = headerPath) = false := by decide

/-- The fixed member paths are pairwise distinct. -/
@[simp] lemma footerPath_ne_optionsPath : decide (footerPath = optionsPath) = false := by decide

/-- The fixed member paths are pairwise distinct. -/
@[simp] lemma footerPath_ne_exampleModelPath : decide (footerPath = exampleModelPath) = false := by decide

/-- The fixed member paths are pairwise distinct. -/
@[simp] lemma optionsPath_ne_indexPath : decide (optionsPath = indexPath) = false := by decide

/-- The fixed member paths are pairwise distinct. -/
@[simp] lemma optionsPath_ne_headerPath : decide (optionsPath = headerPath) = false := by decide

/-- The fixed member paths are pairwise distinct. -/
@[simp] lemma optionsPath_ne_footerPath : decide (optionsPath = footerPath) = false := by decide

/-- The fixed member paths are pairwise distinct. -/
@[simp] lemma optionsPath_ne_exampleModelPath : decide (optionsPath = exampleModelPath) = false := by decide

/-- The fixed member paths are pairwise distinct. -/
@[simp] lemma exampleModelPath_ne_indexPath : decide (exampleModelPath = indexPath) = false := by decide

/-- The fixed member paths are pairwise distinct. -/
@[simp] lemma exampleModelPath_ne_headerPath : decide (exampleModelPath = headerPath) = false := by decide

/-- The fixed member paths are pairwise distinct. -/
@[simp] lemma exampleModelPath_ne_footerPath : decide (exampleModelPath = footerPath) = false := by decide

/-- The fixed member paths are pairwise distinct. -/
@[simp] lemma exampleModelPath_ne_optionsPath : decide (exampleModelPath = optionsPath) = false := by decide

/-- A fixed member path is never an assets-folder path. -/
@[simp] lemma indexPath_ne_assetsPath (n : List Char) :
    decide (indexPath = (assetsPrefix ++ n)) = false := by
  rw [decide_eq_false_iff_not]
  simp [indexPath, assetsPrefix]

/-- A fixed member path is never an assets-folder path. -/
@[simp] lemma headerPath_ne_assetsPath (n : List Char) :
    decide (headerPath = (assetsPrefix ++ n)) = false := by
  rw [decide_eq_false_iff_not]
  simp [headerPath, assetsPrefix]

/-- A fixed member path is never an assets-folder path. -/
@[simp] lemma footerPath_ne_assetsPath (n : List Char) :
    decide (footerPath = (assetsPrefix ++ n)) = false := by
  rw [decide_eq_false_iff_not]
  simp [footerPath, assetsPrefix]

/-- A fixed member path is never an assets-folder path. -/
@[simp] lemma optionsPath_ne_assetsPath (n : List Char) :
    decide (optionsPath = (assetsPrefix ++ n)) = false := by
  rw [decide_eq_false_iff_not]
  simp [optionsPath, assetsPrefix]

/-- A fixed member path is never an assets-folder path. -/
@[simp] lemma exampleModelPath_ne_assetsPath (n : List Char) :
    decide (exampleModelPath = (assetsPrefix ++ n)) = false := by
  rw [decide_eq_false_iff_not]
  simp [exampleModelPath, assetsPrefix]

/-- Paths of a conditional archive. -/
@[simp] lemma hasPath_ite (P : Prop) [Decidable P] (z1 z2 : Archive) (p : List Char) :
    Archive.hasPath (if P then z1 else z2) p =
      (if P then z1.hasPath p else z2.hasPath p) := by
  split
  all_goals rfl

/-- A conditional file call on a fresh path appends a conditional entry. -/
lemma file_ite (b : Bool) (z : Archive) (p : List Char) (c : EContent)
    (h : z.hasPath p = false) :
    (if b then z.file p c else z) = z ++ (if b then [(p, c)] else []) := by
  cases b
  · simp
  · simp [Archive.file_fresh _ _ _ h]


/-- Bool-level membership-of-path unfolding. -/
lemma hasPath_iff (z : Archive) (p : List Char) :
    z.hasPath p = true ↔ ∃ e ∈ z, e.1 = p := by
  unfold Archive.hasPath
  rw [List.any_eq_true]
  exact exists_congr fun e => and_congr_right fun _ => Iff.of_eq (decide_eq_true_eq)

/-- An entryless archive holds no path. -/
@[simp] lemma hasPath_nil (p : List Char) : Archive.hasPath [] p = false := rfl

/-- Adding a file adds exactly its path to the archive's paths, whether it
replaces an entry or appends one. -/
@[simp] lemma hasPath_file (z : Archive) (p : List Char) (c : EContent)
    (q : List Char) :
    (z.file p c).hasPath q = (decide (p = q) || z.hasPath q) := by
  by_cases hpq : p = q
  · subst hpq
    simp only [decide_True, Bool.true_or]
    rw [hasPath_iff]
    unfold Archive.file
    split
    next h =>
      rcases List.any_eq_true.mp h with ⟨e, he, hep⟩
      refine ⟨(p, c), List.mem_map.mpr ⟨e, he, ?_⟩, rfl⟩
      rw [decide_eq_true_eq] at hep
      simp [hep]
    next h =>
      exact ⟨(p, c), by simp, rfl⟩
  · have hiff : (z.file p c).hasPath q = true ↔ z.hasPath q = true := by
      rw [hasPath_iff, hasPath_iff]
      unfold Archive.file
      split
      next h =>
        constructor
        · rintro ⟨e, he, heq⟩
          rcases List.mem_map.mp he with ⟨x, hx, hfx⟩
          by_cases hxp : x.1 = p
          · rw [if_pos hxp] at hfx
            rw [← hfx] at heq
            exact absurd heq hpq
          · rw [if_neg hxp] at hfx
            exact ⟨x, hx, by rw [hfx]; exact heq⟩
        · rintro ⟨x, hx, hxq⟩
          by_cases hxp : x.1 = p
          · exact absurd (hxp ▸ hxq) hpq
          · refine ⟨x, List.mem_map.mpr ⟨x, hx, ?_⟩, hxq⟩
            rw [if_neg hxp]
      next h =>
        constructor
        · rintro ⟨e, he, heq⟩
          rcases List.mem_append.mp he with he2 | he2
          · exact ⟨e, he2, heq⟩
          · rw [List.mem_singleton] at he2
            rw [he2] at heq
            exact absurd heq hpq
        · rintro ⟨x, hx, hxq⟩
          exact ⟨x, List.mem_append.mpr (Or.inl hx), hxq⟩
    have hd : decide (p = q) = false := by
      rw [decide_eq_false_iff_not]
      exact hpq
    rw [hd, Bool.false_or]
    cases hz : (z.file p c).hasPath q <;> cases hw : z.hasPath q <;> simp_all

/-- What `packBundle` produces when it does not throw: one conditional entry
per member kind in source order, then one entry per asset.  The asset-name
hypothesis is the Session invariant (collision-free names). -/
lemma packBundle_ok_eq (s : RenderTemplateDataViewModel) (sel : IncludedFiles)
    (v : Json)
    (hnodup : (s.assets.map Asset.name).Nodup)
    (hv : sel.exampleModel = false ∨ s.modelStr.jsonParse = some v) :
    packBundle s sel =
      Except.ok
        ((if sel.index then [(indexPath, EContent.text s.htmlTemplate)] else []) ++
          (if sel.header && !s.headerHtmlTemplate.isEmptyS then
            [(headerPath, EContent.text s.headerHtmlTemplate)] else []) ++
          (if sel.footer && !s.footerHtmlTemplate.isEmptyS then
            [(footerPath, EContent.text s.footerHtmlTemplate)] else []) ++
          (if sel.options then
            [(optionsPath, EContent.text (JStr.jsonC (optionsToJson s.options)))]
            else []) ++
          (if sel.exampleModel then
            [(exampleModelPath, EContent.text (JStr.jsonC v))] else []) ++
          (if sel.assets then assetEntries s.assets else [])) := by
  have h1 : (if sel.index then
      Archive.empty.file indexPath (EContent.text s.htmlTemplate)
      else Archive.empty) =
      Archive.empty ++
        (if sel.index then [(indexPath, EContent.text s.htmlTemplate)] else []) :=
    file_ite _ _ _ _ (by simp only [hasPath_empty])
  simp only [packBundle, h1]
  rw [file_ite _ _ _ _ (by
    simp only [hasPath_file, hasPath_append, hasPath_ite, hasPath_single,
      hasPath_nil, hasPath_empty, indexPath_ne_optionsPath,
      headerPath_ne_optionsPath, footerPath_ne_optionsPath, ite_self,
      Bool.or_false, Bool.false_or])]
  rw [file_ite _ _ _ _ (by
    simp only [hasPath_file, hasPath_append, hasPath_ite, hasPath_single,
      hasPath_nil, hasPath_empty, indexPath_ne_footerPath,
      headerPath_ne_footerPath, ite_self, Bool.or_false, Bool.false_or])]
  rw [file_ite _ _ _ _ (by
    simp only [hasPath_file, hasPath_append, hasPath_ite, hasPath_single,
      hasPath_nil, hasPath_empty, indexPath_ne_headerPath, ite_self,
      Bool.or_false, Bool.false_or])]
  have hfresh : ∀ (z : Archive), z = ((Archive.empty ++
      (if sel.index then [(indexPath, EContent.text s.htmlTemplate)] else [])) ++
      (if sel.header && !s.headerHtmlTemplate.isEmptyS then
        [(headerPath, EContent.text s.headerHtmlTemplate)] else []) ++
      (if sel.footer && !s.footerHtmlTemplate.isEmptyS then
        [(footerPath, EContent.text s.footerHtmlTemplate)] else []) ++
      (if sel.options then
        [(optionsPath, EContent.text (JStr.jsonC (optionsToJson s.options)))]
        else [])) →
      ∀ a ∈ s.assets, z.hasPath (assetsPrefix ++ a.name) = false := by
    intro z hz a hma
    subst hz
    simp only [hasPath_append, hasPath_ite, hasPath_single, hasPath_nil,
      hasPath_empty, indexPath_ne_assetsPath, headerPath_ne_assetsPath,
      footerPath_ne_assetsPath, optionsPath_ne_assetsPath, ite_self,
      Bool.or_false, Bool.false_or]
  rcases hv with hv | hv
  · simp only [hv, Bool.false_eq_true, if_false]
    by_cases ha : sel.assets
    · simp only [ha, if_true]
      rw [foldl_file_assets _ _ (hfresh _ rfl) hnodup]
      simp [Archive.empty, List.append_assoc]
    · simp only [ha, Bool.false_eq_true, if_false]
      simp [Archive.empty, List.append_assoc]
  · by_cases hm : sel.exampleModel
    · simp only [hm, if_true, hv]
      rw [Archive.file_fresh _ _ _ (by
        simp only [hasPath_append, hasPath_ite, hasPath_single, hasPath_nil,
          hasPath_empty, indexPath_ne_exampleModelPath,
          headerPath_ne_exampleModelPath, footerPath_ne_exampleModelPath,
          optionsPath_ne_exampleModelPath, ite_self, Bool.or_false,
          Bool.false_or])]
      by_cases ha : sel.assets
      · simp only [ha, if_true]
        rw [foldl_file_assets _ _ (by
          intro a hma
          simp only [hasPath_append, hasPath_ite, hasPath_single, hasPath_nil,
            hasPath_empty, indexPath_ne_assetsPath, headerPath_ne_assetsPath,
            footerPath_ne_assetsPath, optionsPath_ne_assetsPath,
            exampleModelPath_ne_assetsPath, ite_self, Bool.or_false,
            Bool.false_or]) hnodup]
        simp [Archive.empty, List.append_assoc]
      · simp only [ha, Bool.false_eq_true, if_false]
        simp [Archive.empty, List.append_assoc]
    · simp only [hm, Bool.false_eq_true, if_false]
      by_cases ha : sel.assets
      · simp only [ha, if_true]
        rw [foldl_file_assets _ _ (hfresh _ rfl) hnodup]
        simp [Archive.empty, List.append_assoc]
      · simp only [ha, Bool.false_eq_true, if_false]
        simp [Archive.empty, List.append_assoc]

/-- The two spellings of the assets prefix denote the same path. -/
@[simp] lemma assetFolderPath_eq : assetFolderPath = assetsPrefix := by decide

/-- Asset collection distributes over concatenation. -/
lemma collectAssets_append (z1 z2 : Archive) :
    collectAssets (z1 ++ z2) = collectAssets z1 ++ collectAssets z2 := by
  simp [collectAssets]

/-- The assets prefix is a prefix of a path it has been prepended to. -/
lemma assetsPrefix_isPrefixOf (n : List Char) :
    assetsPrefix.isPrefixOf (assetsPrefix ++ n) = true := by
  rw [List.isPrefixOf_iff_prefix]
  exact List.prefix_append _ _

/-- The asset loop recovers exactly the assets written by the pack loop,
given the Session invariant that asset names are non-empty. -/
lemma collectAssets_assetEntries (l : List Asset)
    (h : ∀ a ∈ l, a.name ≠ []) :
    collectAssets (assetEntries l) = l := by
  induction l with
  | nil => rfl
  | cons a rest ih =>
      have hname : a.name ≠ [] := h a (by simp)
      have hpre : assetFolderPath.isPrefixOf (assetsPrefix ++ a.name) = true := by
        rw [assetFolderPath_eq]
        exact assetsPrefix_isPrefixOf _
      have hne : decide ((assetsPrefix ++ a.name) = assetFolderPath) = false := by
        rw [decide_eq_false_iff_not, assetFolderPath_eq]
        intro hcontra
        have h2 : assetsPrefix ++ a.name = assetsPrefix ++ [] := by
          rw [hcontra]
          simp
        exact hname ((assetsPath_inj _ _).mp h2)
      have hdrop : (assetsPrefix ++ a.name).drop assetFolderPath.length = a.name := by
        rw [assetFolderPath_eq]
        exact List.drop_left _ _
      simp only [assetEntries, List.map_cons, collectAssets, List.filterMap_cons]
      rw [hpre]
      simp only [hne, Bool.not_false, Bool.and_true, Bool.true_and, ite_true]
      rw [hdrop]
      have ih2 := ih (fun b hb => h b (by simp [hb]))
      simp only [assetEntries, collectAssets] at ih2
      rw [ih2]
      rfl

/-- A fixed-path entry is not an asset entry. -/
lemma collectAssets_cons_fixed (p : List Char) (c : EContent) (z : Archive)
    (h : assetFolderPath.isPrefixOf p = false) :
    collectAssets ((p, c) :: z) = collectAssets z := by
  simp only [collectAssets, List.filterMap_cons]
  rw [h]
  simp

/-- Merging the serialized options back over the defaults restores them:
each recognized key is present in the serialization and wins the merge. -/
lemma options_roundtrip (o : RenderOptions) :
    mergeOptions getBaseOptions (jsonToPartialOptions (optionsToJson o)) = o := rfl

/-- C10: for every archive in which `index.html`, `header.html` or
`footer.html` is present but its content is the empty string, unpack leaves
the corresponding target field unchanged — a present-but-empty text member
acts exactly like an absent one — and consequently unpack can never set the
body, header or footer to the empty string: a field it did change is
non-empty. -/
theorem C10_empty_text_members (zip : Archive) (t : RenderTemplateDataViewModel) :
    (∀ c, zip.findFile indexPath = some c → c.asString.isEmptyS = true →
      (loadBundle zip t).target.htmlTemplate = t.htmlTemplate) ∧
    (∀ c, zip.findFile headerPath = some c → c.asString.isEmptyS = true →
      (loadBundle zip t).target.headerHtmlTemplate = t.headerHtmlTemplate) ∧
    (∀ c, zip.findFile footerPath = some c → c.asString.isEmptyS = true →
      (loadBundle zip t).target.footerHtmlTemplate = t.footerHtmlTemplate) ∧
    ((loadBundle zip t).target.htmlTemplate ≠ t.htmlTemplate →
      (loadBundle zip t).target.htmlTemplate.isEmptyS = false) ∧
    ((loadBundle zip t).target.headerHtmlTemplate ≠ t.headerHtmlTemplate →
      (loadBundle zip t).target.headerHtmlTemplate.isEmptyS = false) ∧
    ((loadBundle zip t).target.footerHtmlTemplate ≠ t.footerHtmlTemplate →
      (loadBundle zip t).target.footerHtmlTemplate.isEmptyS = false) := by
  refine ⟨?_, ?_, ?_, ?_, ?_, ?_⟩
  · intro c hc he
    rw [loadBundle_target_htmlTemplate]
    have hr : readText zip indexPath = some c.asString := by
      simp [readText, hc]
    rw [hr, indexStep_some_empty _ _ he]
  · intro c hc he
    rw [loadBundle_target_headerHtmlTemplate]
    have hr : readText zip headerPath = some c.asString := by
      simp [readText, hc]
    rw [hr, headerStep_some_empty _ _ he]
  · intro c hc he
    rw [loadBundle_target_footerHtmlTemplate]
    have hr : readText zip footerPath = some c.asString := by
      simp [readText, hc]
    rw [hr, footerStep_some_empty _ _ he]
  · rw [loadBundle_target_htmlTemplate]
    rcases hr : readText zip indexPath with _ | s
    · intro hne
      exact absurd rfl hne
    · by_cases he : s.isEmptyS
      · rw [indexStep_some_empty _ _ he]
        intro hne
        exact absurd rfl hne
      · have he2 : s.isEmptyS = false := by
          simpa using he
        rw [indexStep_some_truthy _ _ he2]
        intro _
        exact he2
  · rw [loadBundle_target_headerHtmlTemplate]
    rcases hr : readText zip headerPath with _ | s
    · intro hne
      exact absurd rfl hne
    · by_cases he : s.isEmptyS
      · rw [headerStep_some_empty _ _ he]
        intro hne
        exact absurd rfl hne
      · have he2 : s.isEmptyS = false := by
          simpa using he
        rw [headerStep_some_truthy _ _ he2]
        intro _
        exact he2
  · rw [loadBundle_target_footerHtmlTemplate]
    rcases hr : readText zip footerPath with _ | s
    · intro hne
      exact absurd rfl hne
    · by_cases he : s.isEmptyS
      · rw [footerStep_some_empty _ _ he]
        intro hne
        exact absurd rfl hne
      · have he2 : s.isEmptyS = false := by
          simpa using he
        rw [footerStep_some_truthy _ _ he2]
        intro _
        exact he2

/-- C10 witness: the empty-text-members archive leaves every text field of a
fully populated target unchanged. -/
theorem C10_witness :
    (zipEmptyTexts.findFile indexPath =
      some (EContent.text (JStr.plain (""))) ∧
      (EContent.text (JStr.plain (""))).asString.isEmptyS = true) ∧
    (loadBundle zipEmptyTexts richTarget).target.htmlTemplate =
      richTarget.htmlTemplate ∧
    (loadBundle zipEmptyTexts richTarget).target.headerHtmlTemplate =
      richTarget.headerHtmlTemplate ∧
    (loadBundle zipEmptyTexts richTarget).target.footerHtmlTemplate =
      richTarget.footerHtmlTemplate :=
  ⟨⟨rfl, rfl⟩,
    (C10_empty_text_members zipEmptyTexts richTarget).1 _ rfl rfl,
    (C10_empty_text_members zipEmptyTexts richTarget).2.1 _ rfl rfl,
    (C10_empty_text_members zipEmptyTexts richTarget).2.2.1 _ rfl rfl⟩

/-- C1 counterexample: unpacking an archive that contains only `header.html`
(the example-model member is absent) into a target whose model is the number
5 succeeds, updates the header — and silently resets the example model to
the empty object, so the model is not left untouched as the claim states. -/
theorem C1_counterexample :
    zipHeaderOnly.findFile exampleModelPath = none ∧
    (loadBundle zipHeaderOnly richTarget).error = none ∧
    (loadBundle zipHeaderOnly richTarget).target.headerHtmlTemplate =
      JStr.plain ("<b>new header</b>") ∧
    (loadBundle zipHeaderOnly richTarget).target.model ≠ richTarget.model := by
  refine ⟨rfl, rfl, rfl, ?_⟩
  intro h
  have h2 : Json.obj [] = Json.num 5 := h
  simp at h2

/-- C1 (amended): a successful unpack overwrites exactly the member kinds
present in the archive for the body, header, footer, options and assets, and
leaves the absent ones unchanged — except the example model, which is reset
to the empty JSON object whenever `example-model.json` is absent. -/
theorem C1_amended_frame (zip : Archive) (t : RenderTemplateDataViewModel)
    (hok : (loadBundle zip t).error = none) :
    (zip.findFile indexPath = none →
      (loadBundle zip t).target.htmlTemplate = t.htmlTemplate) ∧
    (zip.findFile headerPath = none →
      (loadBundle zip t).target.headerHtmlTemplate = t.headerHtmlTemplate) ∧
    (zip.findFile footerPath = none →
      (loadBundle zip t).target.footerHtmlTemplate = t.footerHtmlTemplate) ∧
    (zip.findFile optionsPath = none →
      (loadBundle zip t).target.options = t.options) ∧
    (collectAssets zip = [] →
      (loadBundle zip t).target.assets = t.assets) ∧
    (zip.findFile exampleModelPath = none →
      (loadBundle zip t).target.model = Json.obj [] ∧
        (loadBundle zip t).target.modelStr = JStr.jsonP (Json.obj [])) := by
  refine ⟨?_, ?_, ?_, ?_, ?_, ?_⟩
  · intro hnone
    rw [loadBundle_target_htmlTemplate]
    have hr : readText zip indexPath = none := by
      simp [readText, hnone]
    rw [hr, indexStep_none]
  · intro hnone
    rw [loadBundle_target_headerHtmlTemplate]
    have hr : readText zip headerPath = none := by
      simp [readText, hnone]
    rw [hr, headerStep_none]
  · intro hnone
    rw [loadBundle_target_footerHtmlTemplate]
    have hr : readText zip footerPath = none := by
      simp [readText, hnone]
    rw [hr, footerStep_none]
  · intro hnone
    rw [loadBundle_target_options]
    have hr : readText zip optionsPath = none := by
      simp [readText, hnone]
    rw [hr]
  · intro hnone
    rw [loadBundle_assets_out zip t hok, hnone]
    simp
  · intro hnone
    have hems : exampleModelStrOf zip = JStr.jsonC (Json.obj []) := by
      simp [exampleModelStrOf, readText, hnone]
    have hmo := loadBundle_model_out zip t hok
    rw [hems] at hmo
    simp only [isEmptyS_jsonC, if_false, Bool.false_eq_true, jsonParse_jsonC] at hmo
    rcases hmo with ⟨v, hv, h1, h2⟩
    cases hv
    exact ⟨h1, h2⟩

/-- C1 amended witness: the header-only archive over a fully populated
target updates the header, keeps body, footer, options and assets, and
resets the model to the empty object. -/
theorem C1_amended_witness :
    (loadBundle zipHeaderOnly richTarget).error = none ∧
    (loadBundle zipHeaderOnly richTarget).target.htmlTemplate =
      richTarget.htmlTemplate ∧
    (loadBundle zipHeaderOnly richTarget).target.footerHtmlTemplate =
      richTarget.footerHtmlTemplate ∧
    (loadBundle zipHeaderOnly richTarget).target.options =
      richTarget.options ∧
    (loadBundle zipHeaderOnly richTarget).target.assets = richTarget.assets ∧
    (loadBundle zipHeaderOnly richTarget).target.model = Json.obj [] ∧
    (loadBundle zipHeaderOnly richTarget).target.modelStr =
      JStr.jsonP (Json.obj []) :=
  ⟨rfl,
    (C1_amended_frame zipHeaderOnly richTarget rfl).1 rfl,
    (C1_amended_frame zipHeaderOnly richTarget rfl).2.2.1 rfl,
    (C1_amended_frame zipHeaderOnly richTarget rfl).2.2.2.1 rfl,
    (C1_amended_frame zipHeaderOnly richTarget rfl).2.2.2.2.1 rfl,
    ((C1_amended_frame zipHeaderOnly richTarget rfl).2.2.2.2.2 rfl).1,
    ((C1_amended_frame zipHeaderOnly richTarget rfl).2.2.2.2.2 rfl).2⟩

/-- C5 counterexample: an archive whose `example-model.json` is present with
empty content — the empty string is not valid JSON — does not make unpack
fail at all: the truthiness guard skips the member, so no `MalformedModel`
error is raised (the model is indeed left untouched). -/
theorem C5_counterexample :
    (zipEmptyModel.findFile exampleModelPath).isSome = true ∧
    (∀ c, zipEmptyModel.findFile exampleModelPath = some c →
      c.asString.jsonParse = none) ∧
    (loadBundle zipEmptyModel richTarget).error = none ∧
    (loadBundle zipEmptyModel richTarget).target.model = richTarget.model := by
  refine ⟨rfl, ?_, rfl, rfl⟩
  intro c hc
  have hc2 : some (EContent.text (JStr.plain (""))) = some c := hc
  cases hc2
  rfl

/-- C5 (amended): for every archive whose `example-model.json` member is
present with non-empty, syntactically invalid content, unpack fails with a
JSON parse error — on the example-model member itself whenever the options
member did not already fail — and the target's model value and model string
are exactly what they were before. -/
theorem C5_model_atomicity (zip : Archive) (t : RenderTemplateDataViewModel)
    (c : EContent) (hfind : zip.findFile exampleModelPath = some c)
    (hne : c.asString.isEmptyS = false)
    (hbad : c.asString.jsonParse = none) :
    (∃ e, (loadBundle zip t).error = some e) ∧
    (∀ e, (loadBundle zip t).error = some e →
      e = LoadErr.parseError ("options.json") ∨
        e = LoadErr.parseError ("example-model.json")) ∧
    ((¬∃ s, readText zip optionsPath = some s ∧ s.isEmptyS = false ∧
        s.jsonParse = none) →
      (loadBundle zip t).error =
        some (LoadErr.parseError ("example-model.json"))) ∧
    (loadBundle zip t).target.model = t.model ∧
    (loadBundle zip t).target.modelStr = t.modelStr := by
  have hems : exampleModelStrOf zip = c.asString := by
    simp [exampleModelStrOf, readText, hfind]
  have h1 : ∃ e, (loadBundle zip t).error = some e :=
    loadBundle_raises_of_bad_model zip t (by rw [hems]; exact hne)
      (by rw [hems]; exact hbad)
  rcases h1 with ⟨e, he⟩
  refine ⟨⟨e, he⟩, ?_, ?_, ?_, ?_⟩
  · intro e2 he2
    exact loadBundle_err_shape zip t e2 he2
  · intro hops
    exact loadBundle_model_error zip t (by rw [hems]; exact hne)
      (by rw [hems]; exact hbad) hops
  · exact (loadBundle_err_frame zip t e he).1
  · exact (loadBundle_err_frame zip t e he).2.1

/-- C5 witness: the bad-model archive makes unpack fail with the
example-model parse error and leaves the model pair of a populated target
untouched. -/
theorem C5_witness :
    zipBadModel.findFile exampleModelPath =
      some (EContent.text (JStr.plain (":"))) ∧
    (EContent.text (JStr.plain (":"))).asString.isEmptyS = false ∧
    (EContent.text (JStr.plain (":"))).asString.jsonParse = none ∧
    (loadBundle zipBadModel richTarget).error =
      some (LoadErr.parseError ("example-model.json")) ∧
    (loadBundle zipBadModel richTarget).target.model = richTarget.model ∧
    (loadBundle zipBadModel richTarget).target.modelStr =
      richTarget.modelStr :=
  ⟨rfl, rfl, rfl,
    (C5_model_atomicity zipBadModel richTarget _ rfl rfl rfl).2.2.1
      (by rintro ⟨s, hs, _⟩; cases hs),
    (C5_model_atomicity zipBadModel richTarget _ rfl rfl rfl).2.2.2.1,
    (C5_model_atomicity zipBadModel richTarget _ rfl rfl rfl).2.2.2.2⟩

/-- C6 counterexample: an archive whose `options.json` is present with empty
content leaves the target's options exactly as they were — they do not
become the baseline defaults overlaid with (no) archive values, which would
be the baseline defaults themselves. -/
theorem C6_counterexample :
    (zipEmptyOptions.findFile optionsPath).isSome = true ∧
    (loadBundle zipEmptyOptions richTarget).error = none ∧
    (loadBundle zipEmptyOptions richTarget).target.options =
      richTarget.options ∧
    richTarget.options ≠ getBaseOptions := by
  refine ⟨rfl, rfl, rfl, ?_⟩
  intro h
  have h2 := congrArg RenderOptions.landscape h
  have h3 : Json.bool true = Json.bool false := h2
  simp at h3

/-- C6 (amended): for every archive whose `options.json` member is present
with non-empty content that parses, unpack sets the target's options to the
baseline defaults overlaid with the archive's per-key values — the archive
wins for each recognized key it contains, and every recognized key it lacks
ends at its baseline default. -/
theorem C6_options_default_fill (zip : Archive) (t : RenderTemplateDataViewModel)
    (c : EContent) (j : Json)
    (hfind : zip.findFile optionsPath = some c)
    (hne : c.asString.isEmptyS = false)
    (hp : c.asString.jsonParse = some j) :
    (loadBundle zip t).target.options =
      mergeOptions getBaseOptions (jsonToPartialOptions j) ∧
    ((jsonToPartialOptions j).pageFormat = none →
      (loadBundle zip t).target.options.pageFormat =
        getBaseOptions.pageFormat) ∧
    ((jsonToPartialOptions j).landscape = none →
      (loadBundle zip t).target.options.landscape =
        getBaseOptions.landscape) ∧
    ((jsonToPartialOptions j).margins = none →
      (loadBundle zip t).target.options.margins = getBaseOptions.margins) := by
  have hr : readText zip optionsPath = some c.asString := by
    simp [readText, hfind]
  have h1 : (loadBundle zip t).target.options =
      mergeOptions getBaseOptions (jsonToPartialOptions j) := by
    rw [loadBundle_target_options, hr]
    simp [hne, hp]
  refine ⟨h1, ?_, ?_, ?_⟩
  · intro hnone
    rw [h1]
    simp [mergeOptions, hnone]
  · intro hnone
    rw [h1]
    simp [mergeOptions, hnone]
  · intro hnone
    rw [h1]
    simp [mergeOptions, hnone]

/-- C6 witness: an archive whose options member holds only the landscape key
installs that key's value and fills every other recognized key with its
baseline default. -/
theorem C6_witness :
    zipOneOption.findFile optionsPath =
      some (EContent.text (JStr.jsonC
        (Json.obj [(("landscape"), Json.bool true)]))) ∧
    (loadBundle zipOneOption richTarget).target.options.landscape =
      Json.bool true ∧
    (loadBundle zipOneOption richTarget).target.options.pageFormat =
      getBaseOptions.pageFormat ∧
    (loadBundle zipOneOption richTarget).target.options.margins =
      getBaseOptions.margins := by
  have h := C6_options_default_fill zipOneOption richTarget _
    (Json.obj [(("landscape"), Json.bool true)]) rfl rfl rfl
  refine ⟨rfl, ?_, h.2.1 rfl, h.2.2.2 rfl⟩
  rw [h.1]
  rfl

/-- Unpacking the archive that a full-selection pack of a session produces
(all five members present, assets appended) into any target restores every
field of the session except the engine tag and the string form of the model,
which is re-rendered pretty. -/
lemma loadBundle_of_packed (s t : RenderTemplateDataViewModel)
    (hbody : s.htmlTemplate.isEmptyS = false)
    (hheader : s.headerHtmlTemplate.isEmptyS = false)
    (hfooter : s.footerHtmlTemplate.isEmptyS = false)
    (hassets : s.assets ≠ [])
    (hnames : ∀ a ∈ s.assets, a.name ≠ []) :
    loadBundle
      ((indexPath, EContent.text s.htmlTemplate) ::
        (headerPath, EContent.text s.headerHtmlTemplate) ::
        (footerPath, EContent.text s.footerHtmlTemplate) ::
        (optionsPath, EContent.text (JStr.jsonC (optionsToJson s.options))) ::
        (exampleModelPath, EContent.text (JStr.jsonC s.model)) ::
        assetEntries s.assets) t =
      { target :=
          { htmlTemplate := s.htmlTemplate
            headerHtmlTemplate := s.headerHtmlTemplate
            footerHtmlTemplate := s.footerHtmlTemplate
            options := s.options
            model := s.model
            modelStr := JStr.jsonP s.model
            assets := s.assets
            templateEngine := t.templateEngine }
        error := none } := by
  have hI : readText
      ((indexPath, EContent.text s.htmlTemplate) ::
        (headerPath, EContent.text s.headerHtmlTemplate) ::
        (footerPath, EContent.text s.footerHtmlTemplate) ::
        (optionsPath, EContent.text (JStr.jsonC (optionsToJson s.options))) ::
        (exampleModelPath, EContent.text (JStr.jsonC s.model)) ::
        assetEntries s.assets) indexPath = some s.htmlTemplate := rfl
  have hH : readText
      ((indexPath, EContent.text s.htmlTemplate) ::
        (headerPath, EContent.text s.headerHtmlTemplate) ::
        (footerPath, EContent.text s.footerHtmlTemplate) ::
        (optionsPath, EContent.text (JStr.jsonC (optionsToJson s.options))) ::
        (exampleModelPath, EContent.text (JStr.jsonC s.model)) ::
        assetEntries s.assets) headerPath = some s.headerHtmlTemplate := rfl
  have hF : readText
      ((indexPath, EContent.text s.htmlTemplate) ::
        (headerPath, EContent.text s.headerHtmlTemplate) ::
        (footerPath, EContent.text s.footerHtmlTemplate) ::
        (optionsPath, EContent.text (JStr.jsonC (optionsToJson s.options))) ::
        (exampleModelPath, EContent.text (JStr.jsonC s.model)) ::
        assetEntries s.assets) footerPath = some s.footerHtmlTemplate := rfl
  have hO : readText
      ((indexPath, EContent.text s.htmlTemplate) ::
        (headerPath, EContent.text s.headerHtmlTemplate) ::
        (footerPath, EContent.text s.footerHtmlTemplate) ::
        (optionsPath, EContent.text (JStr.jsonC (optionsToJson s.options))) ::
        (exampleModelPath, EContent.text (JStr.jsonC s.model)) ::
        assetEntries s.assets) optionsPath =
        some (JStr.jsonC (optionsToJson s.options)) := rfl
  have hE : readText
      ((indexPath, EContent.text s.htmlTemplate) ::
        (headerPath, EContent.text s.headerHtmlTemplate) ::
        (footerPath, EContent.text s.footerHtmlTemplate) ::
        (optionsPath, EContent.text (JStr.jsonC (optionsToJson s.options))) ::
        (exampleModelPath, EContent.text (JStr.jsonC s.model)) ::
        assetEntries s.assets) exampleModelPath =
        some (JStr.jsonC s.model) := rfl
  have hC : collectAssets
      ((indexPath, EContent.text s.htmlTemplate) ::
        (headerPath, EContent.text s.headerHtmlTemplate) ::
        (footerPath, EContent.text s.footerHtmlTemplate) ::
        (optionsPath, EContent.text (JStr.jsonC (optionsToJson s.options))) ::
        (exampleModelPath, EContent.text (JStr.jsonC s.model)) ::
        assetEntries s.assets) = s.assets := by
    rw [collectAssets_cons_fixed _ _ _ (by decide)]
    rw [collectAssets_cons_fixed _ _ _ (by decide)]
    rw [collectAssets_cons_fixed _ _ _ (by decide)]
    rw [collectAssets_cons_fixed _ _ _ (by decide)]
    rw [collectAssets_cons_fixed _ _ _ (by decide)]
    exact collectAssets_assetEntries s.assets hnames
  simp only [loadBundle, hI, hH, hF, hO, hE, hC]
  rw [indexStep_some_truthy _ _ hbody]
  rw [headerStep_some_truthy _ _ hheader]
  rw [footerStep_some_truthy _ _ hfooter]
  rw [optionsStep_some_good (JStr.jsonC (optionsToJson s.options)) _ (optionsToJson s.options) rfl rfl]
  rw [options_roundtrip]
  simp only [Option.getD_some]
  rw [modelStep_good _ (JStr.jsonC s.model) s.model _ rfl rfl]
  unfold assetsStep
  rw [if_pos (by simp [List.length_pos, hassets])]

/-- C3: for every Session satisfying the Session invariants — non-empty
body, header and footer, a model string in sync with the model value, at
least one asset, and non-empty collision-free asset names — unpacking the
result of a full-selection pack into a fresh default target restores the
session in all five member kinds: string-equal body, header and footer,
equal options record, equal model value (whose installed string parses back
to it), and byte-equal assets under the same names. -/
theorem C3_roundtrip (s : RenderTemplateDataViewModel)
    (hbody : s.htmlTemplate.isEmptyS = false)
    (hheader : s.headerHtmlTemplate.isEmptyS = false)
    (hfooter : s.footerHtmlTemplate.isEmptyS = false)
    (hsync : s.modelStr.jsonParse = some s.model)
    (hassets : s.assets ≠ [])
    (hnames : ∀ a ∈ s.assets, a.name ≠ [])
    (hnodup : (s.assets.map Asset.name).Nodup) :
    ∃ a, packBundle s includedFilesAll = Except.ok a ∧
      (loadBundle a getBaseRenderData).error = none ∧
      (loadBundle a getBaseRenderData).target.htmlTemplate = s.htmlTemplate ∧
      (loadBundle a getBaseRenderData).target.headerHtmlTemplate =
        s.headerHtmlTemplate ∧
      (loadBundle a getBaseRenderData).target.footerHtmlTemplate =
        s.footerHtmlTemplate ∧
      (loadBundle a getBaseRenderData).target.options = s.options ∧
      (loadBundle a getBaseRenderData).target.model = s.model ∧
      (loadBundle a getBaseRenderData).target.modelStr.jsonParse =
        some s.model ∧
      (loadBundle a getBaseRenderData).target.assets = s.assets := by
  have hpack := packBundle_ok_eq s includedFilesAll s.model hnodup
    (Or.inr hsync)
  simp only [includedFilesAll, hheader, hfooter, Bool.not_false,
    Bool.and_true, Bool.true_and, if_true, List.singleton_append,
    List.cons_append, List.nil_append] at hpack
  refine ⟨_, hpack, ?_, ?_, ?_, ?_, ?_, ?_, ?_, ?_⟩
  all_goals rw [loadBundle_of_packed s getBaseRenderData hbody hheader hfooter
    hassets hnames]
  all_goals rfl

/-- C3 witness: the round trip at a concrete session exercising every
member kind. -/
theorem C3_witness :
    roundtripSession.htmlTemplate.isEmptyS = false ∧
    roundtripSession.modelStr.jsonParse = some roundtripSession.model ∧
    roundtripSession.assets ≠ [] ∧
    (∃ a, packBundle roundtripSession includedFilesAll = Except.ok a ∧
      (loadBundle a getBaseRenderData).error = none ∧
      (loadBundle a getBaseRenderData).target.htmlTemplate =
        roundtripSession.htmlTemplate ∧
      (loadBundle a getBaseRenderData).target.headerHtmlTemplate =
        roundtripSession.headerHtmlTemplate ∧
      (loadBundle a getBaseRenderData).target.footerHtmlTemplate =
        roundtripSession.footerHtmlTemplate ∧
      (loadBundle a getBaseRenderData).target.options =
        roundtripSession.options ∧
      (loadBundle a getBaseRenderData).target.model =
        roundtripSession.model ∧
      (loadBundle a getBaseRenderData).target.modelStr.jsonParse =
        some roundtripSession.model ∧
      (loadBundle a getBaseRenderData).target.assets =
        roundtripSession.assets) :=
  ⟨rfl, rfl, List.cons_ne_nil _ _,
    C3_roundtrip roundtripSession rfl rfl rfl rfl (List.cons_ne_nil _ _)
      (by decide) (by decide)⟩

/-- Membership of an asset entry path. -/
lemma hasPath_assetEntries (l : List Asset) (q : List Char) :
    (assetEntries l).hasPath q =
      l.any (fun x => decide ((assetsPrefix ++ x.name) = q)) := by
  unfold Archive.hasPath assetEntries
  induction l with
  | nil => rfl
  | cons a rest ih =>
      simp only [List.map_cons, List.any_cons]
      rw [ih]

/-- Membership of a conditional singleton. -/
lemma mem_ite_singleton {α : Type} {x y : α} {P : Prop} [Decidable P]
    (h : x ∈ (if P then [y] else [])) : x = y := by
  split at h
  · simpa using h
  · simp at h

/-- C7 counterexample: with the full selection — body selected — packing a
session whose model string is not valid JSON throws instead of producing any
archive, so pack does not write `index.html` for every session in which the
body is selected. -/
theorem C7_counterexample :
    includedFilesAll.index = true ∧
    badModelSession.modelStr.jsonParse = none ∧
    packBundle badModelSession includedFilesAll =
      Except.error PackErr.malformedModel :=
  ⟨rfl, rfl, rfl⟩

/-- C7 (amended): provided the model string parses whenever the example
model is selected (otherwise pack throws `MalformedModel` and writes
nothing) and asset names are collision-free, pack yields an archive holding
`index.html` exactly when the body is selected (even empty), `header.html`
and `footer.html` exactly when selected and non-empty, `options.json` and
`example-model.json` exactly when selected, one assets-folder entry per
asset name exactly when assets are selected — and nothing else. -/
theorem C7_membership (s : RenderTemplateDataViewModel) (sel : IncludedFiles)
    (v : Json)
    (hnodup : (s.assets.map Asset.name).Nodup)
    (hv : sel.exampleModel = false ∨ s.modelStr.jsonParse = some v) :
    ∃ a, packBundle s sel = Except.ok a ∧
      a.hasPath indexPath = sel.index ∧
      a.hasPath headerPath = (sel.header && !s.headerHtmlTemplate.isEmptyS) ∧
      a.hasPath footerPath = (sel.footer && !s.footerHtmlTemplate.isEmptyS) ∧
      a.hasPath optionsPath = sel.options ∧
      a.hasPath exampleModelPath = sel.exampleModel ∧
      (∀ n, a.hasPath (assetsPrefix ++ n) =
        (sel.assets && s.assets.any (fun x => decide (x.name = n)))) ∧
      (∀ p, a.hasPath p = true →
        p = indexPath ∨ p = headerPath ∨ p = footerPath ∨ p = optionsPath ∨
          p = exampleModelPath ∨ ∃ x ∈ s.assets, p = assetsPrefix ++ x.name) := by
  have hpack := packBundle_ok_eq s sel v hnodup hv
  refine ⟨_, hpack, ?_, ?_, ?_, ?_, ?_, ?_, ?_⟩
  · simp [hasPath_assetEntries]
  · simp [hasPath_assetEntries]
  · simp [hasPath_assetEntries]
  · simp [hasPath_assetEntries]
  · simp [hasPath_assetEntries]
  · intro n
    simp only [hasPath_append, hasPath_ite, hasPath_single, hasPath_nil,
      indexPath_ne_assetsPath, headerPath_ne_assetsPath,
      footerPath_ne_assetsPath, optionsPath_ne_assetsPath,
      exampleModelPath_ne_assetsPath, ite_self, Bool.or_false, Bool.false_or,
      hasPath_assetEntries]
    have hinj : ∀ x : Asset,
        decide ((assetsPrefix ++ x.name) = (assetsPrefix ++ n)) =
          decide (x.name = n) := by
      intro x
      by_cases hx : x.name = n
      · rw [hx]
        simp
      · rw [decide_eq_false (fun hcontra =>
          hx ((assetsPath_inj _ _).mp hcontra)), decide_eq_false hx]
    simp only [hinj]
    cases sel.assets
    · simp
    · simp
  · intro p hp
    rw [hasPath_iff] at hp
    rcases hp with ⟨e, he, hep⟩
    simp only [List.append_assoc, List.mem_append] at he
    rcases he with h1 | h2 | h3 | h4 | h5 | h6
    · exact Or.inl (by rw [← hep, mem_ite_singleton h1])
    · exact Or.inr (Or.inl (by rw [← hep, mem_ite_singleton h2]))
    · exact Or.inr (Or.inr (Or.inl (by rw [← hep, mem_ite_singleton h3])))
    · exact Or.inr (Or.inr (Or.inr (Or.inl
        (by rw [← hep, mem_ite_singleton h4]))))
    · exact Or.inr (Or.inr (Or.inr (Or.inr (Or.inl
        (by rw [← hep, mem_ite_singleton h5])))))
    · refine Or.inr (Or.inr (Or.inr (Or.inr (Or.inr ?_))))
      rcases hi : sel.assets with _ | _
      · rw [hi] at h6
        simp at h6
      · rw [hi] at h6
        simp only [if_true] at h6
        rcases List.mem_map.mp h6 with ⟨x, hx, hfx⟩
        exact ⟨x, hx, by rw [← hep, ← hfx]⟩

/-- C7 witness: the end-to-end scenario — packing the sample session with
body `<p>hi</p>`, A4 options, model `{}` and no assets yields an archive
with exactly `index.html`, `options.json` and `example-model.json`. -/
theorem C7_witness :
    endToEndSession.modelStr.jsonParse = some (Json.obj []) ∧
    (∃ a, packBundle endToEndSession includedFilesAll = Except.ok a ∧
      a.hasPath indexPath = true ∧
      a.hasPath headerPath = false ∧
      a.hasPath footerPath = false ∧
      a.hasPath optionsPath = true ∧
      a.hasPath exampleModelPath = true ∧
      (∀ n, a.hasPath (assetsPrefix ++ n) = false) ∧
      (∀ p, a.hasPath p = true →
        p = indexPath ∨ p = headerPath ∨ p = footerPath ∨ p = optionsPath ∨
          p = exampleModelPath ∨
          ∃ x ∈ endToEndSession.assets, p = assetsPrefix ++ x.name)) := by
  rcases C7_membership endToEndSession includedFilesAll (Json.obj [])
    (by decide) (Or.inr rfl) with ⟨a, hp, h1, h2, h3, h4, h5, h6, h7⟩
  exact ⟨rfl, a, hp, h1, h2, h3, h4, h5, fun n => h6 n, h7⟩

/-- C8: `storeBundle` — on any failure, whether pack threw or the remote
store call failed, it sets `lastError`, returns the empty id and leaves
`currentBundle`, `dirty` and the session untouched; on success it returns
the remote id, re-links `currentBundle` to it under the requested name and
clears `dirty` — so a failure's empty id is distinguishable from any
success whose id is non-empty. -/
theorem C8_storeBundle (name : String) (remote : Except String SaveResp)
    (st : HandlingState) :
    ((∃ e, packBundle st.session includedFilesAll = Except.error e) →
      (storeBundle name remote st).1 = ("") ∧
      (storeBundle name remote st).2.currentBundle = st.currentBundle ∧
      (storeBundle name remote st).2.dirty = st.dirty ∧
      (storeBundle name remote st).2.session = st.session ∧
      (storeBundle name remote st).2.bundleError.isSome = true) ∧
    (∀ a m, packBundle st.session includedFilesAll = Except.ok a →
      remote = Except.error m →
      (storeBundle name remote st).1 = ("") ∧
      (storeBundle name remote st).2.currentBundle = st.currentBundle ∧
      (storeBundle name remote st).2.dirty = st.dirty ∧
      (storeBundle name remote st).2.session = st.session ∧
      (storeBundle name remote st).2.bundleError.isSome = true) ∧
    (∀ a res, packBundle st.session includedFilesAll = Except.ok a →
      remote = Except.ok res →
      (storeBundle name remote st).1 = res.id ∧
      (storeBundle name remote st).2.currentBundle =
        some { id := res.id, name := name } ∧
      (storeBundle name remote st).2.dirty = false ∧
      (storeBundle name remote st).2.session = st.session ∧
      (storeBundle name remote st).2.bundleError = st.bundleError ∧
      (res.id ≠ ("") → (storeBundle name remote st).1 ≠ (""))) := by
  refine ⟨?_, ?_, ?_⟩
  · rintro ⟨e, he⟩
    simp [storeBundle, he]
  · intro a m ha hm
    simp [storeBundle, ha, hm]
  · intro a res ha hr
    simp [storeBundle, ha, hr]

/-- C8 witness: a failing remote store and a successful one, from the fresh
state. -/
theorem C8_witness :
    ((storeBundle ("doc") (Except.error ("boom")) baseState).1 = ("") ∧
      (storeBundle ("doc") (Except.error ("boom")) baseState).2.currentBundle =
        baseState.currentBundle ∧
      (storeBundle ("doc") (Except.error ("boom")) baseState).2.dirty =
        baseState.dirty ∧
      (storeBundle ("doc") (Except.error ("boom")) baseState).2.bundleError.isSome =
        true) ∧
    ((storeBundle ("doc") (Except.ok { id := ("id9") }) baseState).1 = ("id9") ∧
      (storeBundle ("doc") (Except.ok { id := ("id9") }) baseState).2.currentBundle =
        some { id := ("id9"), name := ("doc") } ∧
      (storeBundle ("doc") (Except.ok { id := ("id9") }) baseState).2.dirty =
        false ∧
      (storeBundle ("doc") (Except.ok { id := ("id9") }) baseState).1 ≠ ("")) := by
  have hpack : ∃ a, packBundle baseState.session includedFilesAll =
      Except.ok a :=
    ⟨_, packBundle_ok_eq baseState.session includedFilesAll (Json.obj [])
      (by decide) (Or.inr rfl)⟩
  rcases hpack with ⟨a, ha⟩
  have hfail := (C8_storeBundle ("doc") (Except.error ("boom")) baseState).2.1
    a ("boom") ha rfl
  have hokk := (C8_storeBundle ("doc") (Except.ok { id := ("id9") })
    baseState).2.2 a { id := ("id9") } ha rfl
  exact ⟨⟨hfail.1, hfail.2.1, hfail.2.2.1, hfail.2.2.2.2⟩,
    ⟨hokk.1, hokk.2.1, hokk.2.2.1,
      hokk.2.2.2.2.2 (by decide)⟩⟩

/-- An already-dirty state stays dirty through the watcher. -/
lemma markDirtyOnChange_of_dirty (old new : RenderTemplateDataViewModel) :
    markDirtyOnChange old new true = true := by
  unfold markDirtyOnChange
  split
  all_goals rfl

/-- A changed session fires the watcher. -/
lemma markDirtyOnChange_of_ne (old new : RenderTemplateDataViewModel)
    (d : Bool) (h : new ≠ old) : markDirtyOnChange old new d = true := by
  unfold markDirtyOnChange
  rw [if_neg h]

/-- C2 counterexample: fetching a bundle whose archive holds a body member
and an unparseable example-model member fails — `lastError` is set — but
the bound session is not left unmodified: the body was already overwritten
before the model parse threw. -/
theorem C2_counterexample :
    (getBundle ("b1") (FetchOutcome.ok zipBadModel ("n") ("golang"))
      baseState).bundleError.isSome = true ∧
    (getBundle ("b1") (FetchOutcome.ok zipBadModel ("n") ("golang"))
      baseState).currentBundle = baseState.currentBundle ∧
    (getBundle ("b1") (FetchOutcome.ok zipBadModel ("n") ("golang"))
      baseState).session.htmlTemplate ≠ baseState.session.htmlTemplate := by
  refine ⟨rfl, rfl, ?_⟩
  intro h
  have h2 : JStr.plain ("<p>new body</p>") =
      JStr.plain ("<h1>Sample invoice</h1>") := h
  simp at h2

/-- C2 (amended): `getBundle` — a transport failure, a non-ok response or an
unopenable body set `lastError` and leave the whole state, session included,
unmodified; a member decode failure sets `lastError` and leaves
`currentBundle` and the engine tag unchanged, but fields decoded before the
throw remain overwritten in the session, and `dirty` is never cleared — it
stays true, and the deep session watcher sets it whenever that partial
decode changed the session, since the success path's `dirty = false` never
runs; on success the decoded session gets the returned engine tag,
`currentBundle` becomes `{id, name}` and `dirty` is cleared. -/
theorem C2_getBundle (id : String) (outcome : FetchOutcome)
    (st : HandlingState) :
    (∀ m, outcome = FetchOutcome.transport m →
      (getBundle id outcome st).session = st.session ∧
      (getBundle id outcome st).currentBundle = st.currentBundle ∧
      (getBundle id outcome st).dirty = st.dirty ∧
      (getBundle id outcome st).bundleError.isSome = true) ∧
    (∀ sx, outcome = FetchOutcome.httpError sx →
      (getBundle id outcome st).session = st.session ∧
      (getBundle id outcome st).currentBundle = st.currentBundle ∧
      (getBundle id outcome st).dirty = st.dirty ∧
      (getBundle id outcome st).bundleError.isSome = true) ∧
    (∀ m, outcome = FetchOutcome.corrupt m →
      (getBundle id outcome st).session = st.session ∧
      (getBundle id outcome st).currentBundle = st.currentBundle ∧
      (getBundle id outcome st).dirty = st.dirty ∧
      (getBundle id outcome st).bundleError.isSome = true) ∧
    (∀ ar nm tag e, outcome = FetchOutcome.ok ar nm tag →
      (loadBundle ar st.session).error = some e →
      (getBundle id outcome st).session = (loadBundle ar st.session).target ∧
      (getBundle id outcome st).session.templateEngine =
        st.session.templateEngine ∧
      (getBundle id outcome st).currentBundle = st.currentBundle ∧
      (st.dirty = true → (getBundle id outcome st).dirty = true) ∧
      ((loadBundle ar st.session).target ≠ st.session →
        (getBundle id outcome st).dirty = true) ∧
      (getBundle id outcome st).bundleError.isSome = true) ∧
    (∀ ar nm tag, outcome = FetchOutcome.ok ar nm tag →
      (loadBundle ar st.session).error = none →
      (getBundle id outcome st).session =
        { (loadBundle ar st.session).target with templateEngine := tag } ∧
      (getBundle id outcome st).currentBundle =
        some { id := id, name := nm } ∧
      (getBundle id outcome st).dirty = false ∧
      (getBundle id outcome st).bundleError = st.bundleError) := by
  refine ⟨?_, ?_, ?_, ?_, ?_⟩
  · rintro m rfl
    simp [getBundle]
  · rintro sx rfl
    simp [getBundle]
  · rintro m rfl
    simp [getBundle]
  · rintro ar nm tag e rfl herr
    refine ⟨?_, ?_, ?_, ?_, ?_, ?_⟩
    · simp [getBundle, herr]
    · simp [getBundle, herr, loadBundle_target_templateEngine]
    · simp [getBundle, herr]
    · intro hd
      simp only [getBundle, herr]
      rw [hd]
      exact markDirtyOnChange_of_dirty _ _
    · intro hne
      simp only [getBundle, herr]
      exact markDirtyOnChange_of_ne _ _ _ hne
    · simp [getBundle, herr]
  · rintro ar nm tag rfl hok
    simp [getBundle, hok]

/-- C2 witness: the amended contract at concrete inputs — an http failure
leaves the fresh state's session untouched; a decode failure on the
bad-model archive changed the clean session and left the state dirty; a
successful fetch of the header-only archive links the state and clears
`dirty`. -/
theorem C2_witness :
    ((getBundle ("b1") (FetchOutcome.httpError ("404")) baseState).session =
      baseState.session ∧
      (getBundle ("b1") (FetchOutcome.httpError ("404"))
        baseState).bundleError.isSome = true) ∧
    ((loadBundle zipBadModel baseState.session).target ≠ baseState.session ∧
      (getBundle ("b1") (FetchOutcome.ok zipBadModel ("n") ("golang"))
        baseState).dirty = true) ∧
    ((loadBundle zipHeaderOnly baseState.session).error = none ∧
      (getBundle ("b1") (FetchOutcome.ok zipHeaderOnly ("n") ("django"))
        baseState).session =
        { (loadBundle zipHeaderOnly baseState.session).target with
            templateEngine := ("django") } ∧
      (getBundle ("b1") (FetchOutcome.ok zipHeaderOnly ("n") ("django"))
        baseState).currentBundle = some { id := ("b1"), name := ("n") } ∧
      (getBundle ("b1") (FetchOutcome.ok zipHeaderOnly ("n") ("django"))
        baseState).dirty = false) := by
  have h1 := (C2_getBundle ("b1") (FetchOutcome.httpError ("404"))
    baseState).2.1 ("404") rfl
  have hne : (loadBundle zipBadModel baseState.session).target ≠
      baseState.session := by
    intro h
    have h2 := congrArg RenderTemplateDataViewModel.htmlTemplate h
    have h3 : JStr.plain ("<p>new body</p>") =
        JStr.plain ("<h1>Sample invoice</h1>") := h2
    simp at h3
  have hbad := (C2_getBundle ("b1")
    (FetchOutcome.ok zipBadModel ("n") ("golang")) baseState).2.2.2.1
    zipBadModel ("n") ("golang") (LoadErr.parseError ("example-model.json"))
    rfl rfl
  have h2 := (C2_getBundle ("b1")
    (FetchOutcome.ok zipHeaderOnly ("n") ("django")) baseState).2.2.2.2
    zipHeaderOnly ("n") ("django") rfl rfl
  exact ⟨⟨h1.1, h1.2.2.2⟩, ⟨hne, hbad.2.2.2.2.1 hne⟩,
    ⟨rfl, h2.1, h2.2.1, h2.2.2.1⟩⟩

/-- C4 counterexample: importing a local archive into a dirty state decodes
it, clears `currentBundle` and the resume pointer — but `dirty` is not
cleared: no line of the import path assigns it. -/
theorem C4_counterexample :
    richState.dirty = true ∧
    (importLocalFile zipBodyOnly richState).currentBundle = none ∧
    (importLocalFile zipBodyOnly richState).localStore = none ∧
    (importLocalFile zipBodyOnly richState).dirty = true :=
  ⟨rfl, rfl, rfl, rfl⟩

/-- C4 (amended): a local-file import whose decode does not throw installs
the decoded session, clears `currentBundle`, removes the resume pointer from
local storage — and never clears `dirty`: no line of the import path assigns
it false, a dirty state stays dirty, and the deep session watcher marks a
clean state dirty whenever the decode changed the session (`lastError` is
untouched). -/
theorem C4_importLocalFile (archive : Archive) (st : HandlingState)
    (hok : (loadBundle archive st.session).error = none) :
    (importLocalFile archive st).session =
      (loadBundle archive st.session).target ∧
    (importLocalFile archive st).currentBundle = none ∧
    (importLocalFile archive st).localStore = none ∧
    (st.dirty = true → (importLocalFile archive st).dirty = true) ∧
    ((loadBundle archive st.session).target ≠ st.session →
      (importLocalFile archive st).dirty = true) ∧
    (importLocalFile archive st).bundleError = st.bundleError := by
  refine ⟨?_, ?_, ?_, ?_, ?_, ?_⟩
  · simp [importLocalFile, hok]
  · simp [importLocalFile, hok]
  · simp [importLocalFile, hok]
  · intro hd
    simp only [importLocalFile, hok]
    rw [hd]
    exact markDirtyOnChange_of_dirty _ _
  · intro hne
    simp only [importLocalFile, hok]
    exact markDirtyOnChange_of_ne _ _ _ hne
  · simp [importLocalFile, hok]

/-- C4 witness: the amended contract at the body-only archive over the
fully populated linked, dirty state — the import unlinks the state, clears
the resume pointer and stays dirty. -/
theorem C4_witness :
    (loadBundle zipBodyOnly richState.session).error = none ∧
    richState.dirty = true ∧
    (importLocalFile zipBodyOnly richState).session =
      (loadBundle zipBodyOnly richState.session).target ∧
    (importLocalFile zipBodyOnly richState).currentBundle = none ∧
    (importLocalFile zipBodyOnly richState).localStore = none ∧
    (importLocalFile zipBodyOnly richState).dirty = true :=
  ⟨rfl, rfl,
    (C4_importLocalFile zipBodyOnly richState rfl).1,
    (C4_importLocalFile zipBodyOnly richState rfl).2.1,
    (C4_importLocalFile zipBodyOnly richState rfl).2.2.1,
    (C4_importLocalFile zipBodyOnly richState rfl).2.2.2.1 rfl⟩

/-- C9: the model/string synchronization invariant.  A load — successful or
not — keeps the model value equal to the parse of the model string whenever
the target satisfied that; a failed decode preserves the prior value/string
pair; and pack with the example model selected re-parses the string, failing
with `MalformedModel` exactly when the string is not valid JSON. -/
theorem C9_model_sync :
    (∀ (zip : Archive) (t : RenderTemplateDataViewModel),
      t.modelStr.jsonParse = some t.model →
        (loadBundle zip t).target.modelStr.jsonParse =
          some ((loadBundle zip t).target.model)) ∧
    (∀ (zip : Archive) (t : RenderTemplateDataViewModel) (e : LoadErr),
      (loadBundle zip t).error = some e →
        (loadBundle zip t).target.model = t.model ∧
          (loadBundle zip t).target.modelStr = t.modelStr) ∧
    (∀ (s : RenderTemplateDataViewModel) (sel : IncludedFiles),
      sel.exampleModel = true →
        (s.modelStr.jsonParse = none ↔
          packBundle s sel = Except.error PackErr.malformedModel)) := by
  refine ⟨?_, ?_, ?_⟩
  · intro zip t hsync
    rcases herr : (loadBundle zip t).error with _ | e
    · have hmo := loadBundle_model_out zip t herr
      by_cases he : (exampleModelStrOf zip).isEmptyS
      · rw [if_pos he] at hmo
        rw [hmo.1, hmo.2]
        exact hsync
      · rw [if_neg he] at hmo
        rcases hmo with ⟨v, _, h1, h2⟩
        rw [h1, h2]
        rfl
    · have hfr := loadBundle_err_frame zip t e herr
      rw [hfr.1, hfr.2.1]
      exact hsync
  · intro zip t e herr
    exact ⟨(loadBundle_err_frame zip t e herr).1,
      (loadBundle_err_frame zip t e herr).2.1⟩
  · intro s sel hsel
    constructor
    · intro hbad
      simp [packBundle, hsel, hbad]
    · intro hpack
      rcases hp : s.modelStr.jsonParse with _ | v
      · rfl
      · rw [packBundle] at hpack
        simp only [hsel, if_true, hp] at hpack
        cases hpack

/-- C9 witness: the sync invariant at concrete inputs — a populated target
stays in sync across a body-only load, and packing a session whose model
string is `:` fails with `MalformedModel`. -/
theorem C9_witness :
    richTarget.modelStr.jsonParse = some richTarget.model ∧
    (loadBundle zipBodyOnly richTarget).target.modelStr.jsonParse =
      some ((loadBundle zipBodyOnly richTarget).target.model) ∧
    badModelSession.modelStr.jsonParse = none ∧
    packBundle badModelSession includedFilesAll =
      Except.error PackErr.malformedModel :=
  ⟨rfl, C9_model_sync.1 zipBodyOnly richTarget rfl, rfl,
    (C9_model_sync.2.2 badModelSession includedFilesAll rfl).mp rfl⟩
